import Mathlib

/-
  Verification of the PX4 commander / navigator decision core against its
  design specification.

  The development shallowly embeds the two source files
    src/modules/commander/Commander.cpp
    src/modules/navigator/navigator_main.cpp
  into Lean: state records mirror the C++ state (vehicle_status,
  actuator_armed, the commander's latches, the navigator's triplets), and the
  command / action / cycle handlers become pure functions from state and input
  to state plus observable effects (acknowledgments, parachute commands,
  warnings).  Machine floats that are only compared against constants are
  modelled as `Option ℚ` (`none` standing for a non-finite float, for which
  every ordered comparison is false, as in IEEE754).  External collaborators
  (health checks, worker thread, geofence containment queries, parameters) are
  supplied through environment records.  Components of this repository whose
  code is not part of the two files (the arm state machine, the main state
  machine, the failsafe resolver, the geofence breach avoidance geometry) are
  modelled from the specification text; each such definition carries a doc
  comment starting with `Modelled from the spec:`.
-/

namespace PX4

/-- Timestamps in microseconds (hrt_absolute_time). -/
abbrev Time := Nat

/-- A MAVLink float command parameter: `none` models a non-finite float
(NaN or infinity).  Ordered comparisons against `none` are false, matching
IEEE754 comparisons against NaN. -/
abbrev Param := Option ℚ

/-- Strict comparison `p > c` on a possibly non-finite parameter
(false for NaN, as in C). -/
def pGT (p : Param) (c : ℚ) : Bool :=
  match p with
  | none => false
  | some q => decide (c < q)

/-- Comparison `p >= c` (false for NaN, as in C). -/
def pGE (p : Param) (c : ℚ) : Bool :=
  match p with
  | none => false
  | some q => decide (c ≤ q)

/-- Comparison `p < c` against an integer bound (false for NaN, as in C). -/
def pLTInt (p : Param) (c : Int) : Bool :=
  match p with
  | none => false
  | some q => decide (q < (c : ℚ))

/-- PX4_ISFINITE. -/
def pFinite (p : Param) : Bool := p.isSome

/-- Truncation toward zero, the C float-to-integer conversion. -/
def truncQ (q : ℚ) : Int := if 0 ≤ q then q.floor else q.ceil

/-- C cast `(int)p` of a float parameter.  A non-finite value is undefined
behaviour in C; the model maps it to 0 (no claim depends on that choice). -/
def pToInt (p : Param) : Int :=
  match p with
  | none => 0
  | some q => truncQ q

/-- `lroundf` / `roundf` then integer cast: round half away from zero.  For
q ≥ 0 this equals ⌊q + 1/2⌋ and for q < 0 it equals ⌈q - 1/2⌉, computed here
on the numerator/denominator representation (⌊(2n+d)/(2d)⌋ for n/d ≥ 0, and
its mirror image for n/d < 0, with the integer divisions applied to
non-negative operands, where machine division is the floor).  A non-finite
value is mapped to 0 (undefined behaviour in C). -/
def pRound (p : Param) : Int :=
  match p with
  | none => 0
  | some q =>
    if 0 ≤ q then (2 * q.num + q.den) / (2 * q.den)
    else -((-2 * q.num + q.den) / (2 * q.den))

/-- `static_cast<int8_t>(lroundf(p))`: the rounded value narrowed into
[-128, 127], the conversion wrapping modulo 256. -/
def pToInt8 (p : Param) : Int := (pRound p + 128) % 256 - 128

/-- `(int)(p + 0.5f)`, the actuator-test function-id conversion: truncation
toward zero of p + 1/2, computed on the numerator/denominator representation
(⌊(2n+d)/(2d)⌋ when 2n+d ≥ 0, its mirror image otherwise, with the integer
divisions applied to non-negative operands).  A non-finite value is mapped
to 0 (undefined behaviour in C). -/
def actuatorFunction (p : Param) : Int :=
  match p with
  | none => 0
  | some q =>
    if 0 ≤ 2 * q.num + (q.den : Int) then (2 * q.num + q.den) / (2 * q.den)
    else -((-2 * q.num - q.den) / (2 * q.den))

/-- C cast `(uint8_t)p` of a float parameter: truncate toward zero, then
reduce modulo 256 (the in-range behaviour; out-of-range is UB in C). -/
def pToUInt8 (p : Param) : Nat := ((pToInt p) % 256).toNat

/-- C cast `(uint32_t)p` of a float parameter, reduced modulo 2^32. -/
def pToUInt32 (p : Param) : Nat := ((pToInt p) % (2 ^ 32)).toNat

/-- transition_result_t. -/
inductive TransitionResult
  | changed
  | notChanged
  | denied
deriving DecidableEq, Repr

/-- vehicle_command_ack_s::VEHICLE_CMD_RESULT_*. -/
inductive CmdResult
  | accepted
  | denied
  | failed
  | temporarilyRejected
  | unsupported
deriving DecidableEq, Repr

/-- arm_disarm_reason_t.  `transitionToStandby` is the zero enumerator, the
value produced by value-initialization in executeActionRequest. -/
inductive ArmDisarmReason
  | transitionToStandby
  | rcStick
  | rcSwitch
  | rcButton
  | commandInternal
  | commandExternal
  | missionStart
  | autoDisarmLand
deriving DecidableEq, Repr

/-- The three RC calling reasons (rc_stick / rc_switch / rc_button). -/
def isRcReason (r : ArmDisarmReason) : Bool :=
  r = ArmDisarmReason.rcStick ∨ r = ArmDisarmReason.rcSwitch ∨ r = ArmDisarmReason.rcButton

/-- vehicle_status_s::ARMING_STATE_* (the ArmStateMachine state). -/
inductive ArmingState
  | init
  | standby
  | armed
  | standbyError
  | shutdown
  | inAirRestore
deriving DecidableEq, Repr

/-- vehicle_status_s::VEHICLE_TYPE_*. -/
inductive VehicleType
  | unknown
  | rotaryWing
  | fixedWing
  | rover
  | airship
deriving DecidableEq, Repr

/-- commander_state_s::MAIN_STATE_* (no sentinel: `MAIN_STATE_MAX` is
modelled by `Option MainState = none` where the code uses it as "unset"). -/
inductive MainState
  | manual
  | altctl
  | posctl
  | autoMission
  | autoLoiter
  | autoRtl
  | acro
  | offboard
  | stab
  | autoTakeoff
  | autoLand
  | autoFollowTarget
  | autoPrecland
  | orbit
  | autoVtolTakeoff
deriving DecidableEq, Repr

/-- vehicle_status_s::NAVIGATION_STATE_* (the states the navigator's switch
distinguishes; `other` collapses the remaining enumerators, which all fall
into the default arm of the switch). -/
inductive NavState
  | manual
  | altctl
  | posctl
  | autoMission
  | autoLoiter
  | autoRtl
  | acro
  | descend
  | termination
  | offboard
  | stab
  | autoTakeoff
  | autoLand
  | autoPrecland
  | autoVtolTakeoff
  | other
deriving DecidableEq, Repr

/-- geofence_result_s::GF_ACTION_*. -/
inductive GeofenceAction
  | noAction
  | warn
  | loiter
  | rtl
  | land
  | terminate
deriving DecidableEq, Repr

/-- Subset of vehicle_status_s read/written by the embedded commander code. -/
structure VehicleStatus where
  systemId : Nat
  componentId : Nat
  vehicleType : VehicleType
  navState : NavState
  navStateTimestamp : Time
  rcSignalLost : Bool
  inTransitionMode : Bool
  autoMissionAvailable : Bool
deriving DecidableEq, Repr

/-- actuator_armed_s flags. -/
structure ActuatorArmed where
  armed : Bool
  lockdown : Bool
  manualLockdown : Bool
  forceFailsafe : Bool
  inEscCalibrationMode : Bool
deriving DecidableEq, Repr

/-- Subset of vehicle_control_mode_s read by the embedded code. -/
structure VehicleControlMode where
  flagControlManualEnabled : Bool
  flagControlClimbRateEnabled : Bool
  flagControlAutoEnabled : Bool
deriving DecidableEq, Repr

/-- vehicle_land_detected_s subset. -/
structure LandDetected where
  landed : Bool
  maybeLanded : Bool
deriving DecidableEq, Repr

/-- commander_state_s: pilot-selected main state plus its change counter. -/
structure CommanderStateRec where
  mainState : MainState
  mainStateChanges : Nat
deriving DecidableEq, Repr

/-- The commander's mutable state as far as the embedded code touches it. -/
structure Commander where
  vehicleStatus : VehicleStatus
  actuatorArmed : ActuatorArmed
  controlMode : VehicleControlMode
  landDetected : LandDetected
  commanderState : CommanderStateRec
  armState : ArmingState
  lockdownTriggered : Bool
  flightTerminationTriggered : Bool
  isThrottleAboveCenter : Bool
  isThrottleLow : Bool
  lastDisarmedTimestamp : Time
  rcCalibrationInProgress : Bool
  calibrationEnabled : Bool
  geofenceAction : GeofenceAction
  homePositionValid : Bool
  statusChanged : Bool
deriving DecidableEq, Repr

/-- External collaborators consumed by the commander (health checks, worker
thread, safety, home position, parameters, mission result), supplied as an
environment.  `mainStateDenied` is the deny row of the MainStateMachine
transition table for the current status flags (the table itself lives in
state_machine_helper.cpp, outside src/). -/
structure Env where
  canArm : NavState → Bool
  workerBusy : Bool
  setHomePositionOk : Bool
  setHomeManuallyOk : Bool
  safetyButtonAvailable : Bool
  safetyOff : Bool
  comHomeEn : Bool
  comMotTestEn : Bool
  checkBatteryDisconnected : Bool
  shutdownAllowed : Bool
  highLatencyHeartbeat : Time
  bootTimestamp : Time
  missionSeqTotal : Int
  mainStateDenied : MainState → Bool
  maxNumMotors : Int
  maxNumServos : Int

/-- Modelled from the spec: the MainStateMachine transition function
(main_state_transition, state_machine_helper.cpp, not under src/).  §4.2: a
transition table keyed by (current_main_state, requested_main_state,
status_flags) yields {Changed, NotChanged, Denied}; on Changed the main-state
change counter increments.  The deny row for the current flags is supplied by
the environment. -/
def main_state_transition (env : Env) (cs : CommanderStateRec) (target : MainState) :
    TransitionResult × CommanderStateRec :=
  if env.mainStateDenied target then (TransitionResult.denied, cs)
  else if cs.mainState = target then (TransitionResult.notChanged, cs)
  else (TransitionResult.changed,
        { cs with mainState := target, mainStateChanges := cs.mainStateChanges + 1 })

/-- Modelled from the spec: the ArmStateMachine transition function
(arming_state_transition, not under src/).  §4.1: to Armed — denied unless the
current state is Standby (or the trusted InAirRestore); if run_preflight_checks
is true, denied unless HealthAndArmingChecks.canArm(nav_state) holds.  To
Standby — permitted from Armed (the safe-to-disarm predicate of §4.1 is
enforced by Commander::disarm in src before this call); denied from Shutdown.
To Init — denied while Armed.  Returns the tri-state result plus the new
state. -/
def arming_state_transition (env : Env) (navState : NavState) (cur : ArmingState)
    (target : ArmingState) (runPreflightChecks : Bool) : TransitionResult × ArmingState :=
  match target with
  | ArmingState.armed =>
    if cur = ArmingState.armed then (TransitionResult.notChanged, cur)
    else if cur = ArmingState.standby ∨ cur = ArmingState.inAirRestore then
      if runPreflightChecks ∧ ¬ env.canArm navState then (TransitionResult.denied, cur)
      else (TransitionResult.changed, ArmingState.armed)
    else (TransitionResult.denied, cur)
  | ArmingState.standby =>
    if cur = ArmingState.standby then (TransitionResult.notChanged, cur)
    else if cur = ArmingState.shutdown then (TransitionResult.denied, cur)
    else (TransitionResult.changed, ArmingState.standby)
  | ArmingState.init =>
    if cur = ArmingState.armed then (TransitionResult.denied, cur)
    else if cur = ArmingState.init then (TransitionResult.notChanged, cur)
    else (TransitionResult.changed, ArmingState.init)
  | _ => (TransitionResult.denied, cur)

/-- The 5-second re-arm grace window, in microseconds (5_s). -/
def graceUs : Time := 5000000

/-- Commander::arm (Commander.cpp 613-682).  The grace window forces
run_preflight_checks to false for an rc_switch request within 5 s of the last
disarm; the local throttle / mode / geofence-RTL checks then gate the
transition when checks are enabled and the vehicle is not yet armed. -/
def arm (env : Env) (s : Commander) (now : Time) (reason : ArmDisarmReason)
    (runPreflightChecks0 : Bool) : TransitionResult × Commander :=
  let rpc :=
    if reason = ArmDisarmReason.rcSwitch ∧ now - s.lastDisarmedTimestamp < graceUs then false
    else runPreflightChecks0
  let localDeny : Bool :=
    if rpc ∧ s.armState ≠ ArmingState.armed then
      if s.controlMode.flagControlManualEnabled then
        if s.controlMode.flagControlClimbRateEnabled ∧ ¬ s.vehicleStatus.rcSignalLost ∧
           s.isThrottleAboveCenter then true
        else if ¬ s.controlMode.flagControlClimbRateEnabled ∧ ¬ s.vehicleStatus.rcSignalLost ∧
                ¬ s.isThrottleLow ∧ s.vehicleStatus.vehicleType ≠ VehicleType.rover then true
        else if s.geofenceAction = GeofenceAction.rtl ∧ ¬ s.homePositionValid then true
        else false
      else if isRcReason reason then true
      else if s.geofenceAction = GeofenceAction.rtl ∧ ¬ s.homePositionValid then true
      else false
    else false
  if localDeny then (TransitionResult.denied, s)
  else
    let tr := arming_state_transition env s.vehicleStatus.navState s.armState
                ArmingState.armed rpc
    let s' := { s with armState := tr.2 }
    if tr.1 = TransitionResult.changed then (tr.1, { s' with statusChanged := true })
    else (tr.1, s')

/-- is_ground_vehicle(vehicle_status): the vehicle is a ground rover. -/
def is_ground_vehicle (vs : VehicleStatus) : Bool := vs.vehicleType = VehicleType.rover

/-- Commander::disarm (Commander.cpp 684-728).  Without `forced`, disarming
is denied unless landed (including maybe-landed or a ground vehicle) or the
vehicle is a rotary wing in manual-thrust mode and the request came from an
RC source. -/
def disarm (env : Env) (s : Commander) (reason : ArmDisarmReason) (forced : Bool) :
    TransitionResult × Commander :=
  let landed := s.landDetected.landed ∨ s.landDetected.maybeLanded ∨
                is_ground_vehicle s.vehicleStatus
  let mcManualThrustMode := s.vehicleStatus.vehicleType = VehicleType.rotaryWing ∧
                            s.controlMode.flagControlManualEnabled ∧
                            ¬ s.controlMode.flagControlClimbRateEnabled
  let commandedByRc := isRcReason reason
  if ¬ forced ∧ ¬ landed ∧ ¬ (mcManualThrustMode ∧ commandedByRc) then
    (TransitionResult.denied, s)
  else
    let tr := arming_state_transition env s.vehicleStatus.navState s.armState
                ArmingState.standby false
    let s' := { s with armState := tr.2 }
    if tr.1 = TransitionResult.changed then (tr.1, { s' with statusChanged := true })
    else (tr.1, s')

/-- The command opcodes the commander's switch distinguishes.  `delegated`
stands for any member of the ignored-command allowlist (Commander.cpp
1478-1517: START_RX_PAIR, CUSTOM_0..2, the mount / camera / ROI / logging /
speed / VTOL-transition / winch / gripper commands and the other entries that
share the single `break` at line 1519); `unknown` stands for any opcode
reaching the `default` arm. -/
inductive VehicleCmd
  | doReposition
  | doSetMode
  | armDisarm
  | doFlightTermination
  | doSetHome
  | navReturnToLaunch
  | navTakeoff
  | navVtolTakeoff
  | navLand
  | navPrecland
  | missionStart
  | controlHighLatency
  | doOrbit
  | actuatorTest
  | preflightRebootShutdown
  | preflightCalibration
  | fixedMagCalYaw
  | preflightStorage
  | runPrearmChecks
  | delegated
  | unknown
deriving DecidableEq, Repr

/-- vehicle_command_s subset. -/
structure Cmd where
  command : VehicleCmd
  param1 : Param
  param2 : Param
  param3 : Param
  param4 : Param
  param5 : Param
  param6 : Param
  param7 : Param
  targetSystem : Nat
  targetComponent : Nat
  sourceSystem : Nat
  sourceComponent : Nat
  fromExternal : Bool
deriving DecidableEq, Repr

/-- Outcome of one switch arm of handle_command: the value left in
`cmd_result`, the new commander state, the acknowledgments already answered
directly inside the arm (answer_command calls), and the number of parachute
commands sent. -/
structure CaseOut where
  cmdResult : CmdResult
  s : Commander
  direct : List CmdResult
  parachute : Nat

/-- Outcome of handle_command: whether the command was addressed to this
system (the function's boolean return), the new state, all acknowledgments
answered (in order), and the number of parachute commands sent. -/
structure HandleOut where
  handled : Bool
  s : Commander
  acks : List CmdResult
  parachute : Nat
deriving DecidableEq, Repr

/-- The acknowledgments produced for one switch arm: the directly answered
ones followed by the final `cmd_result` answer, which is suppressed when
cmd_result is still UNSUPPORTED (Commander.cpp 1528-1531). -/
def caseAcks (c : CaseOut) : List CmdResult :=
  c.direct ++ (if c.cmdResult ≠ CmdResult.unsupported then [c.cmdResult] else [])

/-- VEHICLE_CMD_DO_REPOSITION arm (Commander.cpp 786-816): bit 0 of the
uint32 cast of param2 requests a switch to AUTO_LOITER. -/
def handleDoReposition (env : Env) (s : Commander) (cmd : Cmd) : CaseOut :=
  if pToUInt32 cmd.param2 % 2 = 1 then
    let mres := main_state_transition env s.commanderState MainState.autoLoiter
    let s' := { s with commanderState := mres.2 }
    if mres.1 ≠ TransitionResult.denied then ⟨CmdResult.accepted, s', [], 0⟩
    else ⟨CmdResult.temporarilyRejected, s', [], 0⟩
  else ⟨CmdResult.accepted, s, [], 0⟩

/-- The MAVLink base/custom mode decode of VEHICLE_CMD_DO_SET_MODE
(Commander.cpp 818-907).  Bits of base_mode: 0 = CUSTOM_MODE_ENABLED,
2 = AUTO_ENABLED, 3 = GUIDED_ENABLED, 4 = STABILIZE_ENABLED,
6 = MANUAL_INPUT_ENABLED.  PX4 custom main modes: 1 MANUAL, 2 ALTCTL,
3 POSCTL, 4 AUTO, 5 ACRO, 6 OFFBOARD, 7 STABILIZED; auto sub modes:
2 TAKEOFF, 3 LOITER, 4 MISSION, 5 RTL, 6 LAND, 8 FOLLOW_TARGET, 9 PRECLAND
(px4_custom_mode.h).  Returns the desired main state (none models
MAIN_STATE_MAX, i.e. unset) and the initial value of main_ret (DENIED for an
unsupported auto sub mode, otherwise NOT_CHANGED). -/
def decodeSetMode (baseMode customMain customSub : Nat) :
    Option MainState × TransitionResult :=
  if baseMode.testBit 0 then
    if customMain = 1 then (some MainState.manual, TransitionResult.notChanged)
    else if customMain = 2 then (some MainState.altctl, TransitionResult.notChanged)
    else if customMain = 3 then (some MainState.posctl, TransitionResult.notChanged)
    else if customMain = 4 then
      if customSub > 0 then
        if customSub = 3 then (some MainState.autoLoiter, TransitionResult.notChanged)
        else if customSub = 4 then (some MainState.autoMission, TransitionResult.notChanged)
        else if customSub = 5 then (some MainState.autoRtl, TransitionResult.notChanged)
        else if customSub = 2 then (some MainState.autoTakeoff, TransitionResult.notChanged)
        else if customSub = 6 then (some MainState.autoLand, TransitionResult.notChanged)
        else if customSub = 8 then (some MainState.autoFollowTarget, TransitionResult.notChanged)
        else if customSub = 9 then (some MainState.autoPrecland, TransitionResult.notChanged)
        else (none, TransitionResult.denied)
      else (some MainState.autoMission, TransitionResult.notChanged)
    else if customMain = 5 then (some MainState.acro, TransitionResult.notChanged)
    else if customMain = 7 then (some MainState.stab, TransitionResult.notChanged)
    else if customMain = 6 then (some MainState.offboard, TransitionResult.notChanged)
    else (none, TransitionResult.notChanged)
  else
    if baseMode.testBit 2 then (some MainState.autoMission, TransitionResult.notChanged)
    else if baseMode.testBit 6 then
      if baseMode.testBit 3 then (some MainState.posctl, TransitionResult.notChanged)
      else if baseMode.testBit 4 then (some MainState.stab, TransitionResult.notChanged)
      else (some MainState.manual, TransitionResult.notChanged)
    else (none, TransitionResult.notChanged)

/-- VEHICLE_CMD_DO_SET_MODE arm (Commander.cpp 818-920). -/
def handleDoSetMode (env : Env) (s : Commander) (cmd : Cmd) : CaseOut :=
  let dec := decodeSetMode (pToUInt8 cmd.param1) (pToUInt8 cmd.param2) (pToUInt8 cmd.param3)
  let step : TransitionResult × CommanderStateRec :=
    match dec.1 with
    | some d => main_state_transition env s.commanderState d
    | none => (dec.2, s.commanderState)
  let s' := { s with commanderState := step.2 }
  if step.1 ≠ TransitionResult.denied then ⟨CmdResult.accepted, s', [], 0⟩
  else ⟨CmdResult.temporarilyRejected, s', [], 0⟩

/-- VEHICLE_CMD_COMPONENT_ARM_DISARM arm (Commander.cpp 922-975).
ARMING_ACTION_ARM = 1, ARMING_ACTION_DISARM = 0; param2 = 21196 is the force
magic value; param3 = 1234 marks a command from IO, which (unforced, from this
system's own ids, and arming) first flicks the arm state machine to
IN_AIR_RESTORE.  An out-of-range param1 leaves cmd_result at UNSUPPORTED, so
the command is never acknowledged.  The home-position capture on successful
arming is an external effect and not tracked. -/
def handleArmDisarm (env : Env) (s : Commander) (now : Time) (cmd : Cmd) : CaseOut :=
  let armingAction := pToInt8 cmd.param1
  if armingAction ≠ 1 ∧ armingAction ≠ 0 then ⟨CmdResult.unsupported, s, [], 0⟩
  else
    let forced := pRound cmd.param2 = 21196
    let cmdFromIo := pRound cmd.param3 = 1234
    let s0 :=
      if ¬ forced ∧ cmdFromIo ∧ cmd.sourceSystem = s.vehicleStatus.systemId ∧
         cmd.sourceComponent = s.vehicleStatus.componentId ∧ armingAction = 1 then
        { s with armState := ArmingState.inAirRestore }
      else s
    let reason := if cmd.fromExternal then ArmDisarmReason.commandExternal
                  else ArmDisarmReason.commandInternal
    let step : TransitionResult × Commander :=
      if armingAction = 1 then arm env s0 now reason (cmd.fromExternal ∨ ¬ forced)
      else disarm env s0 reason forced
    if step.1 = TransitionResult.denied then ⟨CmdResult.temporarilyRejected, step.2, [], 0⟩
    else ⟨CmdResult.accepted, step.2, [], 0⟩

/-- VEHICLE_CMD_DO_FLIGHTTERMINATION arm (Commander.cpp 977-1007).
param1 > 1.5: lockdown, latched by _lockdown_triggered; param1 > 0.5: real
termination (force_failsafe latched by _flight_termination_triggered, one
parachute command on the edge); otherwise both flags and both latches are
cleared.  Always acknowledged accepted. -/
def handleFlightTermination (s : Commander) (cmd : Cmd) : CaseOut :=
  if pGT cmd.param1 (3/2) then
    if ¬ s.lockdownTriggered then
      ⟨CmdResult.accepted,
       { s with actuatorArmed.lockdown := true, lockdownTriggered := true }, [], 0⟩
    else ⟨CmdResult.accepted, s, [], 0⟩
  else if pGT cmd.param1 (1/2) then
    if ¬ s.flightTerminationTriggered then
      ⟨CmdResult.accepted,
       { s with actuatorArmed.forceFailsafe := true, flightTerminationTriggered := true },
       [], 1⟩
    else ⟨CmdResult.accepted, s, [], 0⟩
  else
    ⟨CmdResult.accepted,
     { s with actuatorArmed.forceFailsafe := false, actuatorArmed.lockdown := false,
              lockdownTriggered := false, flightTerminationTriggered := false }, [], 0⟩

/-- VEHICLE_CMD_DO_SET_HOME arm (Commander.cpp 1009-1048).  The actual home
capture / validation is delegated to the HomePosition collaborator; only its
success flag matters for the result. -/
def handleDoSetHome (env : Env) (s : Commander) (cmd : Cmd) : CaseOut :=
  if env.comHomeEn then
    if pGT cmd.param1 (1/2) then
      if env.setHomePositionOk then ⟨CmdResult.accepted, s, [], 0⟩
      else ⟨CmdResult.temporarilyRejected, s, [], 0⟩
    else
      if pFinite cmd.param5 ∧ pFinite cmd.param6 ∧ pFinite cmd.param7 then
        if env.setHomeManuallyOk then ⟨CmdResult.accepted, s, [], 0⟩
        else ⟨CmdResult.temporarilyRejected, s, [], 0⟩
      else ⟨CmdResult.denied, s, [], 0⟩
  else ⟨CmdResult.denied, s, [], 0⟩

/-- VEHICLE_CMD_NAV_RETURN_TO_LAUNCH arm (Commander.cpp 1051-1070). -/
def handleNavReturnToLaunch (env : Env) (s : Commander) : CaseOut :=
  let mres := main_state_transition env s.commanderState MainState.autoRtl
  let s' := { s with commanderState := mres.2 }
  if mres.1 = TransitionResult.changed then ⟨CmdResult.accepted, s', [], 0⟩
  else ⟨CmdResult.temporarilyRejected, s', [], 0⟩

/-- VEHICLE_CMD_NAV_TAKEOFF arm (Commander.cpp 1072-1092). -/
def handleNavTakeoff (env : Env) (s : Commander) : CaseOut :=
  let mres := main_state_transition env s.commanderState MainState.autoTakeoff
  let s' := { s with commanderState := mres.2 }
  if mres.1 = TransitionResult.changed then ⟨CmdResult.accepted, s', [], 0⟩
  else if s'.commanderState.mainState = MainState.autoTakeoff then
    ⟨CmdResult.accepted, s', [], 0⟩
  else ⟨CmdResult.temporarilyRejected, s', [], 0⟩

/-- VEHICLE_CMD_NAV_VTOL_TAKEOFF arm (Commander.cpp 1094-1110). -/
def handleNavVtolTakeoff (env : Env) (s : Commander) : CaseOut :=
  let mres := main_state_transition env s.commanderState MainState.autoVtolTakeoff
  let s' := { s with commanderState := mres.2 }
  if mres.1 = TransitionResult.changed then ⟨CmdResult.accepted, s', [], 0⟩
  else if s'.commanderState.mainState = MainState.autoVtolTakeoff then
    ⟨CmdResult.accepted, s', [], 0⟩
  else ⟨CmdResult.temporarilyRejected, s', [], 0⟩

/-- VEHICLE_CMD_NAV_LAND arm (Commander.cpp 1112-1131). -/
def handleNavLand (env : Env) (s : Commander) : CaseOut :=
  let mres := main_state_transition env s.commanderState MainState.autoLand
  let s' := { s with commanderState := mres.2 }
  if mres.1 ≠ TransitionResult.denied then ⟨CmdResult.accepted, s', [], 0⟩
  else ⟨CmdResult.temporarilyRejected, s', [], 0⟩

/-- VEHICLE_CMD_NAV_PRECLAND arm (Commander.cpp 1133-1152). -/
def handleNavPrecland (env : Env) (s : Commander) : CaseOut :=
  let mres := main_state_transition env s.commanderState MainState.autoPrecland
  let s' := { s with commanderState := mres.2 }
  if mres.1 ≠ TransitionResult.denied then ⟨CmdResult.accepted, s', [], 0⟩
  else ⟨CmdResult.temporarilyRejected, s', [], 0⟩

/-- VEHICLE_CMD_MISSION_START arm (Commander.cpp 1154-1189).  The arm call
runs only when the main-state transition was not denied (short-circuit). -/
def handleMissionStart (env : Env) (s : Commander) (now : Time) (cmd : Cmd) : CaseOut :=
  if s.vehicleStatus.autoMissionAvailable then
    if pFinite cmd.param1 ∧ pGE cmd.param1 (-1) ∧ pLTInt cmd.param1 env.missionSeqTotal then
      let mres := main_state_transition env s.commanderState MainState.autoMission
      let s1 := { s with commanderState := mres.2 }
      if mres.1 ≠ TransitionResult.denied then
        let ares := arm env s1 now ArmDisarmReason.missionStart true
        if ares.1 ≠ TransitionResult.denied then ⟨CmdResult.accepted, ares.2, [], 0⟩
        else ⟨CmdResult.temporarilyRejected, ares.2, [], 0⟩
      else ⟨CmdResult.temporarilyRejected, s1, [], 0⟩
    else ⟨CmdResult.denied, s, [], 0⟩
  else ⟨CmdResult.denied, s, [], 0⟩

/-- VEHICLE_CMD_CONTROL_HIGH_LATENCY arm (Commander.cpp 1191-1200): a failed
acknowledgment when a high-latency heartbeat was seen after boot; otherwise
cmd_result stays UNSUPPORTED and no acknowledgment is sent. -/
def handleControlHighLatency (env : Env) (s : Commander) : CaseOut :=
  if env.bootTimestamp < env.highLatencyHeartbeat then ⟨CmdResult.failed, s, [], 0⟩
  else ⟨CmdResult.unsupported, s, [], 0⟩

/-- VEHICLE_CMD_DO_ORBIT arm (Commander.cpp 1202-1228). -/
def handleDoOrbit (env : Env) (s : Commander) : CaseOut :=
  let step : TransitionResult × CommanderStateRec :=
    if s.vehicleStatus.inTransitionMode then (TransitionResult.denied, s.commanderState)
    else if s.vehicleStatus.vehicleType = VehicleType.fixedWing then
      main_state_transition env s.commanderState MainState.autoLoiter
    else main_state_transition env s.commanderState MainState.orbit
  let s' := { s with commanderState := step.2 }
  if step.1 ≠ TransitionResult.denied then ⟨CmdResult.accepted, s', [], 0⟩
  else ⟨CmdResult.temporarilyRejected, s', [], 0⟩

/-- Commander::handle_command_actuator_test result (Commander.cpp 1536-1589).
A function id below 1000 outside both the motor range
[1, 1 + MAX_NUM_MOTORS) and the servo range [33, 33 + MAX_NUM_SERVOS) is
answered UNSUPPORTED; the range bounds come from the actuator_test message
definition and are carried by the environment.  The published actuator_test
message is an external effect; only the result code matters here. -/
def handle_command_actuator_test (env : Env) (s : Commander) (cmd : Cmd) : CmdResult :=
  if s.armState = ArmingState.armed ∨ (env.safetyButtonAvailable ∧ ¬ env.safetyOff) then
    CmdResult.denied
  else if ¬ env.comMotTestEn then CmdResult.denied
  else if actuatorFunction cmd.param5 < 1000 then
    if 1 ≤ actuatorFunction cmd.param5 ∧
       actuatorFunction cmd.param5 < 1 + env.maxNumMotors then CmdResult.accepted
    else if 33 ≤ actuatorFunction cmd.param5 ∧
       actuatorFunction cmd.param5 < 33 + env.maxNumServos then CmdResult.accepted
    else CmdResult.unsupported
  else CmdResult.accepted

/-- VEHICLE_CMD_PREFLIGHT_REBOOT_SHUTDOWN arm (Commander.cpp 1234-1277).
param1 = 0 does nothing and is accepted; 1/2/3 reboot, shut down or reboot to
bootloader when shutdown_if_allowed() and the board request succeed (after
which the process never returns — out of scope); anything else is denied.
All answers are direct answer_command calls; cmd_result stays UNSUPPORTED. -/
def handleRebootShutdown (env : Env) (s : Commander) (cmd : Cmd) : CaseOut :=
  let p1 := pToInt cmd.param1
  if p1 = 0 then ⟨CmdResult.unsupported, s, [CmdResult.accepted], 0⟩
  else if (p1 = 1 ∨ p1 = 2 ∨ p1 = 3) ∧ env.shutdownAllowed then
    ⟨CmdResult.unsupported, s, [CmdResult.accepted], 0⟩
  else ⟨CmdResult.unsupported, s, [CmdResult.denied], 0⟩

/-- PREFLIGHT_CALIBRATION_TEMPERATURE_CALIBRATION (vehicle_command_s). -/
def temperatureCalibration : Int := 3

/-- The calibration-selection chain of VEHICLE_CMD_PREFLIGHT_CALIBRATION
(Commander.cpp 1300-1398), reached when not armed / shutting down / busy and
after the transition to ARMING_STATE_INIT succeeded.  The temperature
calibration is delegated to the events module with no acknowledgment; the
final else-if arm (param4 = 0, RC-calibration end) restores RC input; any
other combination is answered unsupported.  Calibration task dispatch is an
external effect; the flags the chain sets on the commander are tracked. -/
def calibrationChain (env : Env) (s : Commander) (cmd : Cmd) : CaseOut :=
  let p1 := pToInt cmd.param1
  let p2 := pToInt cmd.param2
  let p3 := pToInt cmd.param3
  let p4 := pToInt cmd.param4
  let p5 := pToInt cmd.param5
  let p6 := pToInt cmd.param6
  let p7 := pToInt cmd.param7
  let calibOn := { s with calibrationEnabled := true }
  if p1 = 1 then ⟨CmdResult.unsupported, calibOn, [CmdResult.accepted], 0⟩
  else if p1 = temperatureCalibration ∨ p5 = temperatureCalibration ∨
          p7 = temperatureCalibration then
    ⟨CmdResult.unsupported, s, [], 0⟩
  else if p2 = 1 then ⟨CmdResult.unsupported, calibOn, [CmdResult.accepted], 0⟩
  else if p3 = 1 then ⟨CmdResult.unsupported, calibOn, [CmdResult.accepted], 0⟩
  else if p4 = 1 then
    ⟨CmdResult.unsupported, { s with rcCalibrationInProgress := true },
     [CmdResult.accepted], 0⟩
  else if p4 = 2 then ⟨CmdResult.unsupported, calibOn, [CmdResult.accepted], 0⟩
  else if p5 = 1 then ⟨CmdResult.unsupported, calibOn, [CmdResult.accepted], 0⟩
  else if p5 = 2 then ⟨CmdResult.unsupported, calibOn, [CmdResult.accepted], 0⟩
  else if p5 = 4 then ⟨CmdResult.unsupported, calibOn, [CmdResult.accepted], 0⟩
  else if p6 = 1 ∨ p6 = 2 then ⟨CmdResult.unsupported, calibOn, [CmdResult.accepted], 0⟩
  else if p7 = 1 then
    if env.checkBatteryDisconnected then
      if env.safetyButtonAvailable ∧ ¬ env.safetyOff then
        ⟨CmdResult.unsupported, s, [CmdResult.accepted], 0⟩
      else
        ⟨CmdResult.unsupported,
         { calibOn with actuatorArmed.inEscCalibrationMode := true },
         [CmdResult.accepted], 0⟩
    else ⟨CmdResult.unsupported, s, [CmdResult.denied], 0⟩
  else if p4 = 0 then
    ⟨CmdResult.unsupported, { s with rcCalibrationInProgress := false },
     [CmdResult.accepted], 0⟩
  else ⟨CmdResult.unsupported, s, [CmdResult.unsupported], 0⟩

/-- VEHICLE_CMD_PREFLIGHT_CALIBRATION arm (Commander.cpp 1279-1402). -/
def handlePreflightCalibration (env : Env) (s : Commander) (cmd : Cmd) : CaseOut :=
  if s.armState = ArmingState.armed ∨ s.armState = ArmingState.shutdown ∨ env.workerBusy then
    ⟨CmdResult.unsupported, s, [CmdResult.temporarilyRejected], 0⟩
  else
    let tr := arming_state_transition env s.vehicleStatus.navState s.armState
                ArmingState.init false
    let s0 := { s with armState := tr.2 }
    if tr.1 = TransitionResult.denied then
      ⟨CmdResult.unsupported, s0, [CmdResult.denied], 0⟩
    else calibrationChain env s0 cmd

/-- VEHICLE_CMD_FIXED_MAG_CAL_YAW arm (Commander.cpp 1404-1437). -/
def handleFixedMagCalYaw (env : Env) (s : Commander) : CaseOut :=
  if s.armState = ArmingState.armed ∨ s.armState = ArmingState.shutdown ∨ env.workerBusy then
    ⟨CmdResult.unsupported, s, [CmdResult.temporarilyRejected], 0⟩
  else
    ⟨CmdResult.unsupported, { s with calibrationEnabled := true },
     [CmdResult.accepted], 0⟩

/-- VEHICLE_CMD_PREFLIGHT_STORAGE arm (Commander.cpp 1439-1471).  A param1
outside 0..4 falls through the else-if chain with no acknowledgment. -/
def handlePreflightStorage (env : Env) (s : Commander) (cmd : Cmd) : CaseOut :=
  if s.armState = ArmingState.armed ∨ s.armState = ArmingState.shutdown ∨ env.workerBusy then
    ⟨CmdResult.unsupported, s, [CmdResult.temporarilyRejected], 0⟩
  else
    let p1 := pToInt cmd.param1
    if 0 ≤ p1 ∧ p1 ≤ 4 then ⟨CmdResult.unsupported, s, [CmdResult.accepted], 0⟩
    else ⟨CmdResult.unsupported, s, [], 0⟩

/-- Commander::handle_command (Commander.cpp 772-1534).  A command whose
non-zero target system or component does not match this vehicle is dropped
with no acknowledgment and a false return.  Otherwise the switch runs one
arm; acknowledgments answered directly inside an arm come first, and the
final `cmd_result` is answered afterwards unless it is still UNSUPPORTED
(the `default` arm answers unsupported directly instead). -/
def handle_command (env : Env) (s : Commander) (now : Time) (cmd : Cmd) : HandleOut :=
  if (cmd.targetSystem ≠ s.vehicleStatus.systemId ∧ cmd.targetSystem ≠ 0) ∨
     (cmd.targetComponent ≠ s.vehicleStatus.componentId ∧ cmd.targetComponent ≠ 0) then
    ⟨false, s, [], 0⟩
  else
    let c : CaseOut :=
      match cmd.command with
      | VehicleCmd.doReposition => handleDoReposition env s cmd
      | VehicleCmd.doSetMode => handleDoSetMode env s cmd
      | VehicleCmd.armDisarm => handleArmDisarm env s now cmd
      | VehicleCmd.doFlightTermination => handleFlightTermination s cmd
      | VehicleCmd.doSetHome => handleDoSetHome env s cmd
      | VehicleCmd.navReturnToLaunch => handleNavReturnToLaunch env s
      | VehicleCmd.navTakeoff => handleNavTakeoff env s
      | VehicleCmd.navVtolTakeoff => handleNavVtolTakeoff env s
      | VehicleCmd.navLand => handleNavLand env s
      | VehicleCmd.navPrecland => handleNavPrecland env s
      | VehicleCmd.missionStart => handleMissionStart env s now cmd
      | VehicleCmd.controlHighLatency => handleControlHighLatency env s
      | VehicleCmd.doOrbit => handleDoOrbit env s
      | VehicleCmd.actuatorTest => ⟨handle_command_actuator_test env s cmd, s, [], 0⟩
      | VehicleCmd.preflightRebootShutdown => handleRebootShutdown env s cmd
      | VehicleCmd.preflightCalibration => handlePreflightCalibration env s cmd
      | VehicleCmd.fixedMagCalYaw => handleFixedMagCalYaw env s
      | VehicleCmd.preflightStorage => handlePreflightStorage env s cmd
      | VehicleCmd.runPrearmChecks => ⟨CmdResult.unsupported, s, [CmdResult.accepted], 0⟩
      | VehicleCmd.delegated => ⟨CmdResult.unsupported, s, [], 0⟩
      | VehicleCmd.unknown => ⟨CmdResult.unsupported, s, [CmdResult.unsupported], 0⟩
    ⟨true, c.s, caseAcks c, c.parachute⟩

/-- action_request_s::SOURCE_*. -/
inductive ActionSource
  | rcStickGesture
  | rcSwitch
  | rcButton
  | rcModeSlot
deriving DecidableEq, Repr

/-- action_request_s::ACTION_*. -/
inductive ActionKind
  | disarm
  | arm
  | toggleArming
  | unkill
  | kill
  | switchMode
deriving DecidableEq, Repr

/-- action_request_s subset. -/
structure ActionRequest where
  source : ActionSource
  action : ActionKind
  mode : MainState
deriving DecidableEq, Repr

/-- The source-to-reason mapping of executeActionRequest (Commander.cpp
1605-1611).  SOURCE_RC_MODE_SLOT is not mapped, leaving the
value-initialized zero enumerator. -/
def reasonOfSource (src : ActionSource) : ArmDisarmReason :=
  match src with
  | ActionSource.rcStickGesture => ArmDisarmReason.rcStick
  | ActionSource.rcSwitch => ArmDisarmReason.rcSwitch
  | ActionSource.rcButton => ArmDisarmReason.rcButton
  | ActionSource.rcModeSlot => ArmDisarmReason.transitionToStandby

/-- Commander::executeActionRequest (Commander.cpp 1592-1679).  Returns the
new commander state and the number of parachute commands sent.  RC-sourced
requests are silently dropped during RC calibration.  Kill engages
manual_lockdown and fires the parachute only on the edge and only when the
mapped reason is rc_switch; Unkill clears manual_lockdown under the same
source condition. -/
def executeActionRequest (env : Env) (s : Commander) (now : Time)
    (req : ActionRequest) : Commander × Nat :=
  if s.rcCalibrationInProgress ∧
     (req.source = ActionSource.rcStickGesture ∨ req.source = ActionSource.rcSwitch ∨
      req.source = ActionSource.rcButton ∨ req.source = ActionSource.rcModeSlot) then
    (s, 0)
  else
    let reason := reasonOfSource req.source
    match req.action with
    | ActionKind.disarm => ((disarm env s reason false).2, 0)
    | ActionKind.arm => ((arm env s now reason true).2, 0)
    | ActionKind.toggleArming =>
      if s.armState = ArmingState.armed then ((disarm env s reason false).2, 0)
      else ((arm env s now reason true).2, 0)
    | ActionKind.unkill =>
      if reason = ArmDisarmReason.rcSwitch ∧ s.actuatorArmed.manualLockdown then
        ({ s with actuatorArmed.manualLockdown := false, statusChanged := true }, 0)
      else (s, 0)
    | ActionKind.kill =>
      if reason = ArmDisarmReason.rcSwitch ∧ ¬ s.actuatorArmed.manualLockdown then
        ({ s with actuatorArmed.manualLockdown := true, statusChanged := true }, 1)
      else (s, 0)
    | ActionKind.switchMode =>
      let s0 :=
        if req.source = ActionSource.rcModeSlot ∧ s.armState ≠ ArmingState.armed ∧
           s.commanderState.mainStateChanges = 0 ∧
           (req.mode = MainState.altctl ∨ req.mode = MainState.posctl) then
          { s with commanderState :=
                     { mainState := req.mode,
                       mainStateChanges := s.commanderState.mainStateChanges + 1 } }
        else s
      ({ s0 with commanderState := (main_state_transition env s0.commanderState req.mode).2 }, 0)

/-- Modelled from the spec: the FailsafeResolver's set_nav_state
(state_machine_helper.cpp, not under src/).  §4.3: each cycle it computes the
authoritative nav_state from its inputs and reports a nav_state change via a
boolean so the caller can refresh the change timestamp.  The resolved state
is kept abstract (`resolved`); the function installs it and reports whether
it differs from the previous one. -/
def set_nav_state (resolved : NavState) (vs : VehicleStatus) : VehicleStatus × Bool :=
  ({ vs with navState := resolved }, resolved ≠ vs.navState)

/-- The nav-state section of one Commander::run cycle (Commander.cpp
2180-2199): run the failsafe resolver and refresh nav_state_timestamp exactly
when the resolver reported a change. -/
def cycleNavStateUpdate (resolved : NavState) (s : Commander) (now : Time) : Commander :=
  let step := set_nav_state resolved s.vehicleStatus
  let vs' := if step.2 then { step.1 with navStateTimestamp := now } else step.1
  { s with vehicleStatus := vs' }

/-- position_setpoint_s::SETPOINT_TYPE_*. -/
inductive SetpointType
  | position
  | velocity
  | loiter
  | takeoff
  | land
  | idle
deriving DecidableEq, Repr

/-- position_setpoint_s subset (the fields the embedded navigator code
touches). -/
structure PositionSetpoint where
  timestamp : Time
  valid : Bool
  typ : SetpointType
  lat : Param
  lon : Param
  alt : Param
  yaw : Param
  yawValid : Bool
  loiterRadius : Param
  loiterDirectionCounterClockwise : Bool
  cruisingSpeed : Param
  cruisingThrottle : Param
  acceptanceRadius : Param
  altValid : Bool
  disableWeatherVane : Bool
deriving DecidableEq, Repr

/-- position_setpoint_triplet_s. -/
structure PosSpTriplet where
  previous : PositionSetpoint
  current : PositionSetpoint
  next : PositionSetpoint
deriving DecidableEq, Repr

/-- The navigation behaviors held in _navigation_mode_array. -/
inductive NavMode
  | mission
  | loiter
  | rtl
  | takeoff
  | land
  | precland
  | vtolTakeoff
deriving DecidableEq, Repr

/-- RTL::RTL_TYPE_* as distinguished by the navigator's switch
(`defaultType` stands for any value reaching the default arm, i.e. direct
home). -/
inductive RtlType
  | missionLanding
  | closest
  | missionLandingReversed
  | defaultType
deriving DecidableEq, Repr

/-- The RTL / Mission collaborator state read by the AUTO_RTL dispatch arm
(navigator_main.cpp 584-685): the configured RTL type, whether the RTL state
machine is past RTL_STATE_LOITER, whether it wants the mission landing,
whether the mission holds a landing start, and the mission progress flags. -/
structure RtlContext where
  rtlType : RtlType
  stateAfterLoiter : Bool
  shouldEngageMissionForLanding : Bool
  landStartAvailable : Bool
  missionFinished : Bool
  missionChanged : Bool
deriving DecidableEq, Repr

/-- External data read by the embedded navigator code: current global / local
position, parameters and defaults, land detector, RTL context, and values
whose computation lives outside the two source files (the braking-stop
projection of calculate_breaking_stop, the multirotor vertical braking
distance). -/
structure NavEnv where
  rtl : RtlContext
  landed : Bool
  globalLat : ℚ
  globalLon : ℚ
  globalAlt : ℚ
  localHeading : ℚ
  homeGlobalPositionValid : Bool
  loiterRadius : ℚ
  defaultAcceptanceRadius : ℚ
  acceptanceRadius : ℚ
  cruisingSpeed : ℚ
  cruisingThrottle : Param
  cruisingSpeedAfterReset : Param
  cruisingThrottleAfterReset : Param
  brakingStopLat : ℚ
  brakingStopLon : ℚ
  gfCheckIntervalUs : Time
  verticalBrakingDistanceMC : ℚ

/-- geofence_result_s subset. -/
structure GeofenceResultRec where
  violated : Bool
  action : GeofenceAction
  homeRequired : Bool
deriving DecidableEq, Repr

/-- The navigator's mutable state as far as the embedded code touches it.
`navState`, `armingState` and `vehicleType` mirror the _vstatus fields the
code reads. -/
structure Navigator where
  navState : NavState
  armingState : ArmingState
  vehicleType : VehicleType
  previousNavState : NavState
  navigationMode : Option NavMode
  posSpTriplet : PosSpTriplet
  posSpTripletUpdated : Bool
  posSpTripletPublishedInvalidOnce : Bool
  canLoiterAtSp : Bool
  repositionTriplet : PosSpTriplet
  takeoffTriplet : PosSpTriplet
  geofenceViolationWarningSent : Bool
  lastGeofenceCheck : Time
  geofenceResult : GeofenceResultRec
deriving DecidableEq, Repr

/-- Navigator::reset_position_setpoint (navigator_main.cpp 1061-1075): a
value-initialized setpoint with NaN lat/lon, the configured defaults, valid
false and type IDLE. -/
def reset_position_setpoint (env : NavEnv) (now : Time) : PositionSetpoint :=
  { timestamp := now
    valid := false
    typ := SetpointType.idle
    lat := none
    lon := none
    alt := some 0
    yaw := some 0
    yawValid := false
    loiterRadius := some env.loiterRadius
    loiterDirectionCounterClockwise := false
    cruisingSpeed := some env.cruisingSpeed
    cruisingThrottle := env.cruisingThrottle
    acceptanceRadius := some env.defaultAcceptanceRadius
    altValid := false
    disableWeatherVane := false }

/-- Navigator::reset_triplets (navigator_main.cpp 1052-1059). -/
def reset_triplets (env : NavEnv) (n : Navigator) (now : Time) : Navigator :=
  let rsp := reset_position_setpoint env now
  { n with posSpTriplet := ⟨rsp, rsp, rsp⟩, posSpTripletUpdated := true }

/-- The AUTO_RTL dispatch arm (navigator_main.cpp 584-685): which behavior
(Mission in fast-forward / reverse, or RTL itself) serves the RTL navigation
state.  `prevMode` is _navigation_mode at the start of the cycle;
`rtlActivated` is the previous-vs-current nav_state edge. -/
def selectRtlMode (rc : RtlContext) (rtlActivated : Bool) (prevMode : Option NavMode)
    (landed : Bool) : NavMode :=
  match rc.rtlType with
  | RtlType.missionLanding =>
    if ¬ rtlActivated ∧ rc.stateAfterLoiter ∧ rc.shouldEngageMissionForLanding then
      NavMode.mission
    else NavMode.rtl
  | RtlType.closest =>
    if ¬ rtlActivated ∧ rc.stateAfterLoiter ∧ rc.shouldEngageMissionForLanding then
      NavMode.mission
    else NavMode.rtl
  | RtlType.missionLandingReversed =>
    if rc.landStartAvailable ∧ ¬ landed then NavMode.mission
    else
      if (prevMode ≠ none ∧ (prevMode ≠ some NavMode.rtl ∨ rc.missionChanged)) ∧
         ¬ rc.missionFinished ∧ ¬ landed then NavMode.mission
      else NavMode.rtl
  | RtlType.defaultType => NavMode.rtl

/-- The navigation states served by one of the seven behaviors (the non-
default arms of the navigator's switch). -/
def isAutoDispatchState (ns : NavState) : Bool :=
  ns = NavState.autoMission ∨ ns = NavState.autoLoiter ∨ ns = NavState.autoRtl ∨
  ns = NavState.autoTakeoff ∨ ns = NavState.autoVtolTakeoff ∨ ns = NavState.autoLand ∨
  ns = NavState.autoPrecland

/-- The switch over nav_state (navigator_main.cpp 570-720): the behavior the
current navigation state selects, before the disarmed override. -/
def navigation_mode_new (env : NavEnv) (n : Navigator) : Option NavMode :=
  match n.navState with
  | NavState.autoMission => some NavMode.mission
  | NavState.autoLoiter => some NavMode.loiter
  | NavState.autoRtl =>
    some (selectRtlMode env.rtl (n.previousNavState ≠ NavState.autoRtl)
            n.navigationMode env.landed)
  | NavState.autoTakeoff => some NavMode.takeoff
  | NavState.autoVtolTakeoff => some NavMode.vtolTakeoff
  | NavState.autoLand => some NavMode.land
  | NavState.autoPrecland => some NavMode.precland
  | _ => none

/-- The behavior actually selected for this cycle, after the disarmed
override (navigator_main.cpp 722-725). -/
def selectedNavMode (env : NavEnv) (n : Navigator) : Option NavMode :=
  if n.armingState ≠ ArmingState.armed then none else navigation_mode_new env n

/-- The _navigation_mode_array order (navigator_main.cpp 83-89). -/
def navigatorModeArray : List NavMode :=
  [NavMode.mission, NavMode.loiter, NavMode.rtl, NavMode.takeoff, NavMode.land,
   NavMode.precland, NavMode.vtolTakeoff]

/-- The run loop (navigator_main.cpp 773-778): every behavior in the array is
run once, with the active flag `_navigation_mode == _navigation_mode_array[i]`. -/
def runFlags (selected : Option NavMode) : List (NavMode × Bool) :=
  navigatorModeArray.map (fun m => (m, selected == some m))

/-- The dispatch section of one Navigator::run cycle (navigator_main.cpp
568-784): select the behavior, update the previous nav state, reset the
triplet on a behavior change except for the two loiter-continuity cases, run
every behavior with its active flag, and reset once more when nothing is
running and the triplet has not yet been published invalid.  Returns the new
state and the (behavior, active) run list. -/
def dispatchCycle (env : NavEnv) (n : Navigator) (now : Time) :
    Navigator × List (NavMode × Bool) :=
  let n0 := { n with
    posSpTripletPublishedInvalidOnce :=
      if isAutoDispatchState n.navState then false else n.posSpTripletPublishedInvalidOnce,
    canLoiterAtSp :=
      if isAutoDispatchState n.navState then n.canLoiterAtSp else false }
  let newMode := selectedNavMode env n
  let n1 := { n0 with previousNavState := n.navState }
  let currentModeIsTakeoff := n.navigationMode = some NavMode.takeoff
  let newModeIsLoiter := newMode = some NavMode.loiter
  let validLoiterSetpoint := n.posSpTriplet.current.valid ∧
                             n.posSpTriplet.current.typ = SetpointType.loiter
  let n2 :=
    if n.navigationMode ≠ newMode then
      if ¬ (currentModeIsTakeoff ∧ newModeIsLoiter) ∧
         ¬ (newModeIsLoiter ∧ validLoiterSetpoint) then reset_triplets env n1 now
      else n1
    else n1
  let n3 := { n2 with navigationMode := newMode }
  let flags := runFlags newMode
  let n4 :=
    if newMode = none ∧ ¬ n3.posSpTripletPublishedInvalidOnce then
      reset_triplets env { n3 with posSpTripletPublishedInvalidOnce := true } now
    else n3
  (n4, flags)

/-- The Geofence collaborator interface consumed by the navigator (boundary
containment / distance queries against the loaded fence, §6). -/
structure GeofenceIface where
  action : GeofenceAction
  predict : Bool
  homeRequired : Bool
  isCloserThanMaxDistToHome : ℚ → ℚ → ℚ → Bool
  isBelowMaxAltitude : ℚ → Bool
  isInsidePolygonOrCircle : ℚ → ℚ → ℚ → Bool
  check : ℚ → ℚ → ℚ → Bool

/-- Modelled from the spec: GeofenceBreachAvoidance (§4.7; the class lives in
lib/geofence_breach_avoidance, not under src/).  The braking-distance test
point projection and the loiter-point geometry are kept abstract; the record
carries the spec guarantee that the generated loiter points "lie inside the
fence" (spec §4.7 / Scenario 5), for a multirotor and a fixed wing
respectively. -/
structure GfBreachAvoidance (gf : GeofenceIface) where
  testPointLat : ℚ
  testPointLon : ℚ
  loiterPointMCLat : ℚ
  loiterPointMCLon : ℚ
  loiterAltMC : ℚ
  loiterPointFWLat : ℚ
  loiterPointFWLon : ℚ
  loiterAltFW : ℚ
  mcInside : gf.isInsidePolygonOrCircle loiterPointMCLat loiterPointMCLon loiterAltMC = true
  fwInside : gf.isInsidePolygonOrCircle loiterPointFWLat loiterPointFWLon loiterAltFW = true

/-- The combined violation bit of the geofence breach check
(navigator_main.cpp 854-872): distance-to-home exceeded, max altitude
exceeded, or outside the polygon/circle set, evaluated at the predictive
test point (or the raw position when prediction is off). -/
def gfViolated (gf : GeofenceIface) (ba : GfBreachAvoidance gf) (env : NavEnv)
    (n : Navigator) : Prop :=
  let vertDist0 : ℚ :=
    if n.vehicleType = VehicleType.rotaryWing then env.verticalBrakingDistanceMC else 5
  let tpLat := if gf.predict then ba.testPointLat else env.globalLat
  let tpLon := if gf.predict then ba.testPointLon else env.globalLon
  let vertDist := if gf.predict then vertDist0 else 0
  ¬ gf.isCloserThanMaxDistToHome tpLat tpLon env.globalAlt ∨
  ¬ gf.isBelowMaxAltitude (env.globalAlt + vertDist) ∨
  ¬ gf.isInsidePolygonOrCircle tpLat tpLon env.globalAlt

instance gfViolatedDecidable (gf : GeofenceIface) (ba : GfBreachAvoidance gf)
    (env : NavEnv) (n : Navigator) : Decidable (gfViolated gf ba env n) := by
  unfold gfViolated
  infer_instance

/-- The reposition setpoint the geofence loiter escape writes
(navigator_main.cpp 885-918): the loiter point generated for the vehicle's
kinematics, the current heading, and the configured radii / speeds. -/
def gfLoiterSetpoint (gf : GeofenceIface) (ba : GfBreachAvoidance gf) (env : NavEnv)
    (n : Navigator) (now : Time) : PositionSetpoint :=
  let isMC := n.vehicleType = VehicleType.rotaryWing
  { n.repositionTriplet.current with
    timestamp := now
    yaw := some env.localHeading
    yawValid := true
    lat := some (if isMC then ba.loiterPointMCLat else ba.loiterPointFWLat)
    lon := some (if isMC then ba.loiterPointMCLon else ba.loiterPointFWLon)
    alt := some (if isMC then ba.loiterAltMC else ba.loiterAltFW)
    valid := true
    loiterRadius := some env.loiterRadius
    altValid := true
    typ := SetpointType.loiter
    cruisingThrottle := env.cruisingThrottle
    acceptanceRadius := some env.acceptanceRadius
    cruisingSpeed := some env.cruisingSpeed }

/-- Navigator::geofence_breach_check (navigator_main.cpp 798-935).  Returns
the new state and the number of violation warnings emitted (0 or 1).  The
check body runs only with geofence position data, a configured action, and
more than the check interval elapsed since the last check.  The warning (and,
for the Loiter action, the reposition loiter point) is produced only on the
violation edge — warning latch clear — and only while armed; a violation-free
check clears the latch. -/
def geofence_breach_check (gf : GeofenceIface) (ba : GfBreachAvoidance gf) (env : NavEnv)
    (n : Navigator) (now : Time) (haveGfData : Bool) : Navigator × Nat :=
  if haveGfData ∧ gf.action ≠ GeofenceAction.noAction ∧
     now - n.lastGeofenceCheck > env.gfCheckIntervalUs then
    let n0 := { n with
      lastGeofenceCheck := now,
      geofenceResult := { violated := n.geofenceResult.violated,
                          action := gf.action, homeRequired := gf.homeRequired } }
    if gfViolated gf ba env n then
      let n1 := { n0 with geofenceResult.violated := true }
      if ¬ n.geofenceViolationWarningSent ∧ n.armingState = ArmingState.armed then
        let n2 :=
          if gf.action = GeofenceAction.loiter then
            { n1 with repositionTriplet.current := gfLoiterSetpoint gf ba env n now }
          else n1
        ({ n2 with geofenceViolationWarningSent := true }, 1)
      else (n1, 0)
    else
      ({ n0 with geofenceResult.violated := false,
                 geofenceViolationWarningSent := false }, 0)
  else (n, 0)

/-- Navigator::geofence_allows_position (navigator_main.cpp 1583-1594).
Permissive when the configured action is none or warn-only, or when the
requested lat/lon are not finite; otherwise the Geofence containment check
decides. -/
def geofence_allows_position (gf : GeofenceIface) (lat lon : Param) (alt : ℚ) : Bool :=
  if gf.action ≠ GeofenceAction.noAction ∧ gf.action ≠ GeofenceAction.warn then
    match lat, lon with
    | some la, some lo => gf.check la lo alt
    | _, _ => true
  else true

/-- The vehicle commands the navigator's command loop distinguishes
(navigator_main.cpp 236-558); `other` stands for any other opcode, which the
chain ignores. -/
inductive NavCmd
  | doGoAround
  | doReposition
  | doOrbit
  | navTakeoff
  | navVtolTakeoff
  | doLandStart
  | missionStart
  | doChangeSpeed
  | roi
  | doVtolTransition
  | other
deriving DecidableEq, Repr

/-- vehicle_command_s subset as the navigator reads it. -/
structure NavCmdMsg where
  command : NavCmd
  param1 : Param
  param2 : Param
  param3 : Param
  param4 : Param
  param5 : Param
  param6 : Param
  param7 : Param
deriving DecidableEq, Repr

/-- The reposition triplet built by the DO_REPOSITION arm
(navigator_main.cpp 258-353), given that the target passed the geofence
check.  The previous setpoint records the current position; the current
setpoint becomes a loiter point at the commanded (or held, or braking-stop)
position. -/
def buildRepositionTriplet (env : NavEnv) (n : Navigator) (cmd : NavCmdMsg) (now : Time) :
    PosSpTriplet :=
  let rep0 := n.repositionTriplet
  let curr := n.posSpTriplet
  let prev := { rep0.previous with
    yaw := some env.localHeading
    lat := some env.globalLat
    lon := some env.globalLon
    alt := some env.globalAlt
    timestamp := now }
  let useDefaultSpeed : Bool :=
    match cmd.param1 with
    | none => true
    | some q => decide (q ≤ 0)
  let base := { rep0.current with
    typ := SetpointType.loiter
    cruisingSpeed := if useDefaultSpeed then some env.cruisingSpeed else cmd.param1
    cruisingThrottle := env.cruisingThrottle
    acceptanceRadius := some env.acceptanceRadius
    yaw := if pFinite cmd.param4 then cmd.param4 else none
    yawValid := pFinite cmd.param4 }
  let positioned :=
    if pFinite cmd.param5 ∧ pFinite cmd.param6 then
      { base with
        lat := cmd.param5
        lon := cmd.param6
        alt := if pFinite cmd.param7 then cmd.param7 else some env.globalAlt }
    else if pFinite cmd.param7 ∨ pFinite cmd.param4 then
      let held := { base with
        lat := if pFinite curr.current.lat then curr.current.lat else some env.globalLat
        lon := if pFinite curr.current.lon then curr.current.lon else some env.globalLon
        alt := if pFinite cmd.param7 then cmd.param7 else some env.globalAlt }
      if pFinite cmd.param7 then
        { held with
          loiterRadius :=
            if pFinite curr.current.loiterRadius ∧ pGT curr.current.loiterRadius 0 then
              curr.current.loiterRadius
            else some env.loiterRadius
          loiterDirectionCounterClockwise :=
            curr.current.loiterDirectionCounterClockwise }
      else held
    else
      if n.vehicleType = VehicleType.rotaryWing ∧
         n.posSpTriplet.current.typ ≠ SetpointType.takeoff then
        { base with
          alt := some env.globalAlt
          lat := some env.brakingStopLat
          lon := some env.brakingStopLon
          yaw := some env.localHeading
          yawValid := true }
      else
        { base with
          alt := some env.globalAlt
          lat := some env.globalLat
          lon := some env.globalLon }
  { previous := prev
    current := { positioned with valid := true, timestamp := now }
    next := { rep0.next with valid := false } }

/-- The reposition setpoint built by the DO_ORBIT arm for a fixed wing
(navigator_main.cpp 379-397). -/
def orbitSetpoint (env : NavEnv) (n : Navigator) (cmd : NavCmdMsg) (now : Time)
    (spLat spLon spAlt : ℚ) : PositionSetpoint :=
  let withRadius := { n.repositionTriplet.current with
    typ := SetpointType.loiter
    loiterRadius := some env.loiterRadius
    loiterDirectionCounterClockwise := false
    cruisingThrottle := env.cruisingThrottle }
  let withParam :=
    match cmd.param1 with
    | some q =>
      { withRadius with
        loiterRadius := some |q|
        loiterDirectionCounterClockwise := decide (q < 0) }
    | none => withRadius
  { withParam with
    lat := some spLat
    lon := some spLon
    alt := some spAlt
    valid := true
    timestamp := now }

/-- The takeoff triplet built by the NAV_TAKEOFF arm
(navigator_main.cpp 402-447). -/
def buildTakeoffTriplet (env : NavEnv) (n : Navigator) (cmd : NavCmdMsg) (now : Time) :
    PosSpTriplet :=
  let rep0 := n.takeoffTriplet
  let prev0 := { rep0.previous with
    yaw := some env.localHeading
    lat := some env.globalLat
    lon := some env.globalLon
    alt := some env.globalAlt }
  let base := { rep0.current with
    loiterRadius := some env.loiterRadius
    loiterDirectionCounterClockwise := false
    typ := SetpointType.takeoff }
  let prev :=
    if env.homeGlobalPositionValid then { prev0 with valid := true, timestamp := now }
    else { prev0 with valid := false }
  let cur0 :=
    if env.homeGlobalPositionValid then { base with yaw := cmd.param4 }
    else { base with yaw := some env.localHeading }
  let cur1 :=
    if pFinite cmd.param5 ∧ pFinite cmd.param6 then
      { cur0 with lat := cmd.param5, lon := cmd.param6 }
    else
      { cur0 with lat := some env.globalLat, lon := some env.globalLon }
  { previous := prev
    current := { cur1 with alt := cmd.param7, valid := true, timestamp := now }
    next := { rep0.next with valid := false } }

/-- The vehicle-command chain of Navigator::run (navigator_main.cpp 236-558),
restricted to its effects on the navigator state tracked here (the
reposition and takeoff triplets).  Acknowledgments, published sub-commands,
ROI, cruise-speed bookkeeping and the VTOL-takeoff parameters are external or
untracked effects. -/
def handleNavCommand (gf : GeofenceIface) (env : NavEnv) (n : Navigator)
    (cmd : NavCmdMsg) (haveGfData : Bool) (now : Time) : Navigator :=
  if cmd.command = NavCmd.doGoAround then n
  else if cmd.command = NavCmd.doReposition ∧ n.armingState = ArmingState.armed then
    let spAlt : ℚ :=
      match cmd.param7 with
      | some a => a
      | none => env.globalAlt
    let repositionValid :=
      if haveGfData then geofence_allows_position gf cmd.param5 cmd.param6 spAlt else true
    if repositionValid then
      { n with repositionTriplet := buildRepositionTriplet env n cmd now }
    else n
  else if cmd.command = NavCmd.doOrbit ∧ n.vehicleType = VehicleType.fixedWing then
    let spLat : ℚ := match cmd.param5 with | some a => a | none => env.globalLat
    let spLon : ℚ := match cmd.param6 with | some a => a | none => env.globalLon
    let spAlt : ℚ := match cmd.param7 with | some a => a | none => env.globalAlt
    let orbitLocationValid :=
      if haveGfData then geofence_allows_position gf (some spLat) (some spLon) spAlt
      else true
    if orbitLocationValid then
      { n with repositionTriplet.current := orbitSetpoint env n cmd now spLat spLon spAlt }
    else n
  else if cmd.command = NavCmd.navTakeoff then
    { n with takeoffTriplet := buildTakeoffTriplet env n cmd now }
  else if cmd.command = NavCmd.doVtolTransition ∧ n.navState ≠ NavState.autoVtolTakeoff then
    let rep := n.posSpTriplet
    { n with repositionTriplet :=
        { rep with current := { rep.current with
            cruisingSpeed := env.cruisingSpeedAfterReset,
            cruisingThrottle := env.cruisingThrottleAfterReset } } }
  else n

/-- The handled-but-unacknowledged paths of handle_command: an ARM_DISARM
whose param1, rounded and narrowed to int8, is neither arm (1) nor
disarm (0); a CONTROL_HIGH_LATENCY with no high-latency heartbeat since
boot; a PREFLIGHT_CALIBRATION that passes the busy/armed gate and the INIT
transition and selects the temperature calibration (delegated to the events
module); a PREFLIGHT_STORAGE that passes the busy/armed gate with a param1
outside 0..4; and an ACTUATOR_TEST that passes the armed/safety and
COM_MOT_TEST_EN gates with a function id below 1000 outside both the motor
and the servo ranges.  On each of these the switch arm returns with
cmd_result still UNSUPPORTED and no direct answer, so no acknowledgment is
ever sent. -/
def silentPath (env : Env) (s : Commander) (cmd : Cmd) : Prop :=
  (cmd.command = VehicleCmd.armDisarm ∧ pToInt8 cmd.param1 ≠ 1 ∧ pToInt8 cmd.param1 ≠ 0) ∨
  (cmd.command = VehicleCmd.controlHighLatency ∧
    ¬ env.bootTimestamp < env.highLatencyHeartbeat) ∨
  (cmd.command = VehicleCmd.actuatorTest ∧
    ¬ (s.armState = ArmingState.armed ∨ (env.safetyButtonAvailable ∧ ¬ env.safetyOff)) ∧
    env.comMotTestEn ∧
    actuatorFunction cmd.param5 < 1000 ∧
    ¬ (1 ≤ actuatorFunction cmd.param5 ∧
       actuatorFunction cmd.param5 < 1 + env.maxNumMotors) ∧
    ¬ (33 ≤ actuatorFunction cmd.param5 ∧
       actuatorFunction cmd.param5 < 33 + env.maxNumServos)) ∨
  (cmd.command = VehicleCmd.preflightCalibration ∧
    ¬ (s.armState = ArmingState.armed ∨ s.armState = ArmingState.shutdown ∨
       env.workerBusy) ∧
    (arming_state_transition env s.vehicleStatus.navState s.armState
       ArmingState.init false).1 ≠ TransitionResult.denied ∧
    pToInt cmd.param1 ≠ 1 ∧
    (pToInt cmd.param1 = temperatureCalibration ∨
     pToInt cmd.param5 = temperatureCalibration ∨
     pToInt cmd.param7 = temperatureCalibration)) ∨
  (cmd.command = VehicleCmd.preflightStorage ∧
    ¬ (s.armState = ArmingState.armed ∨ s.armState = ArmingState.shutdown ∨
       env.workerBusy) ∧
    ¬ (0 ≤ pToInt cmd.param1 ∧ pToInt cmd.param1 ≤ 4))

instance silentPathDecidable (env : Env) (s : Commander) (cmd : Cmd) :
    Decidable (silentPath env s cmd) := by
  unfold silentPath
  infer_instance

/-- A command addressed by broadcast (target ids 0), which every commander
accepts for handling. -/
def mkCmd (c : VehicleCmd) (p1 p2 p3 p4 p5 p6 p7 : Param) : Cmd :=
  { command := c
    param1 := p1, param2 := p2, param3 := p3, param4 := p4
    param5 := p5, param6 := p6, param7 := p7
    targetSystem := 0, targetComponent := 0
    sourceSystem := 0, sourceComponent := 0
    fromExternal := true }

/-- A broadcast DO_FLIGHTTERMINATION command. -/
def ftCmd (p : Param) : Cmd :=
  mkCmd VehicleCmd.doFlightTermination p none none none none none none

/-- The three severity levels of the DO_FLIGHTTERMINATION param1 threshold. -/
inductive TermSeverity
  | lockdownLevel
  | terminateLevel
  | clearLevel
deriving DecidableEq, Repr

/-- Severity classification of param1 (param1 > 1.5 / param1 > 0.5 /
otherwise, with NaN comparing false and therefore clearing). -/
def termSeverity (p : Param) : TermSeverity :=
  if pGT p (3/2) then TermSeverity.lockdownLevel
  else if pGT p (1/2) then TermSeverity.terminateLevel
  else TermSeverity.clearLevel

/-- The latch coupling maintained by every writer of the lockdown /
force_failsafe flags in Commander.cpp: each flag equals its one-shot
latch. -/
def termInv (s : Commander) : Prop :=
  s.actuatorArmed.lockdown = s.lockdownTriggered ∧
  s.actuatorArmed.forceFailsafe = s.flightTerminationTriggered

/-- A permissive sample environment for concrete evaluations. -/
def env0 : Env :=
  { canArm := fun _ => true
    workerBusy := false
    setHomePositionOk := true
    setHomeManuallyOk := true
    safetyButtonAvailable := false
    safetyOff := true
    comHomeEn := true
    comMotTestEn := true
    checkBatteryDisconnected := true
    shutdownAllowed := true
    highLatencyHeartbeat := 0
    bootTimestamp := 0
    missionSeqTotal := 10
    mainStateDenied := fun _ => false
    maxNumMotors := 12
    maxNumServos := 8 }

/-- A sample vehicle status. -/
def baseVehicleStatus : VehicleStatus :=
  { systemId := 1, componentId := 1, vehicleType := VehicleType.rotaryWing
    navState := NavState.manual, navStateTimestamp := 0, rcSignalLost := false
    inTransitionMode := false, autoMissionAvailable := true }

/-- A sample commander state: landed, standby, no latches. -/
def baseCommander : Commander :=
  { vehicleStatus := baseVehicleStatus
    actuatorArmed := { armed := false, lockdown := false, manualLockdown := false
                       forceFailsafe := false, inEscCalibrationMode := false }
    controlMode := { flagControlManualEnabled := true, flagControlClimbRateEnabled := false
                     flagControlAutoEnabled := false }
    landDetected := { landed := true, maybeLanded := false }
    commanderState := { mainState := MainState.manual, mainStateChanges := 0 }
    armState := ArmingState.standby
    lockdownTriggered := false
    flightTerminationTriggered := false
    isThrottleAboveCenter := false
    isThrottleLow := true
    lastDisarmedTimestamp := 0
    rcCalibrationInProgress := false
    calibrationEnabled := false
    geofenceAction := GeofenceAction.noAction
    homePositionValid := true
    statusChanged := false }

/-- The sample commander in an altitude-controlled manual mode with the
throttle above center — a state whose arming preflight checks deny. -/
def graceCommander : Commander :=
  { baseCommander with
    controlMode := { flagControlManualEnabled := true, flagControlClimbRateEnabled := true
                     flagControlAutoEnabled := false }
    isThrottleAboveCenter := true }

/-- The sample commander armed and flying (not landed), in a climb-rate
controlled mode. -/
def flyingCommander : Commander :=
  { baseCommander with
    armState := ArmingState.armed
    landDetected := { landed := false, maybeLanded := false }
    controlMode := { flagControlManualEnabled := true, flagControlClimbRateEnabled := true
                     flagControlAutoEnabled := false } }

/-- A broadcast ARM_DISARM disarm command without the force magic value. -/
def disarmCmd : Cmd :=
  mkCmd VehicleCmd.armDisarm (some 0) (some 0) (some 0) none none none none

/-- A broadcast ARM_DISARM command with the out-of-range action param 5. -/
def badArmDisarmCmd : Cmd :=
  mkCmd VehicleCmd.armDisarm (some 5) (some 0) (some 0) none none none none

/-- A broadcast ACTUATOR_TEST command whose param5 gives function id 0 —
below 1000 and outside both the motor and the servo ranges. -/
def badActuatorTestCmd : Cmd :=
  mkCmd VehicleCmd.actuatorTest none none none none (some 0) none none

/-- A sample position setpoint in the reset/idle shape. -/
def idleSetpoint : PositionSetpoint :=
  { timestamp := 0, valid := false, typ := SetpointType.idle, lat := none, lon := none
    alt := some 0, yaw := some 0, yawValid := false, loiterRadius := some 80
    loiterDirectionCounterClockwise := false, cruisingSpeed := some (-1)
    cruisingThrottle := none, acceptanceRadius := some 10, altValid := false
    disableWeatherVane := false }

/-- A sample navigator environment. -/
def navEnv0 : NavEnv :=
  { rtl := { rtlType := RtlType.defaultType, stateAfterLoiter := false
             shouldEngageMissionForLanding := false, landStartAvailable := false
             missionFinished := false, missionChanged := false }
    landed := false, globalLat := 1, globalLon := 2, globalAlt := 100
    localHeading := 0, homeGlobalPositionValid := true, loiterRadius := 80
    defaultAcceptanceRadius := 10, acceptanceRadius := 10, cruisingSpeed := -1
    cruisingThrottle := none, cruisingSpeedAfterReset := some (-1)
    cruisingThrottleAfterReset := none, brakingStopLat := 1, brakingStopLon := 2
    gfCheckIntervalUs := 200000, verticalBrakingDistanceMC := 3 }

/-- A sample navigator state: disarmed, manual, idle triplets. -/
def baseNavigator : Navigator :=
  { navState := NavState.manual, armingState := ArmingState.standby
    vehicleType := VehicleType.rotaryWing, previousNavState := NavState.manual
    navigationMode := none
    posSpTriplet := ⟨idleSetpoint, idleSetpoint, idleSetpoint⟩
    posSpTripletUpdated := false, posSpTripletPublishedInvalidOnce := true
    canLoiterAtSp := false
    repositionTriplet := ⟨idleSetpoint, idleSetpoint, idleSetpoint⟩
    takeoffTriplet := ⟨idleSetpoint, idleSetpoint, idleSetpoint⟩
    geofenceViolationWarningSent := false, lastGeofenceCheck := 0
    geofenceResult := { violated := false, action := GeofenceAction.noAction
                        homeRequired := false } }

/-- The sample navigator, armed and in AUTO_LOITER. -/
def armedLoiterNavigator : Navigator :=
  { baseNavigator with armingState := ArmingState.armed, navState := NavState.autoLoiter }

/-- The sample navigator, armed and in AUTO_MISSION. -/
def armedMissionNavigator : Navigator :=
  { baseNavigator with armingState := ArmingState.armed, navState := NavState.autoMission }

/-- A sample geofence whose polygon check admits latitudes up to 10. -/
def gf0 : GeofenceIface :=
  { action := GeofenceAction.loiter, predict := false, homeRequired := false
    isCloserThanMaxDistToHome := fun _ _ _ => true
    isBelowMaxAltitude := fun _ => true
    isInsidePolygonOrCircle := fun lat _ _ => decide (lat ≤ 10)
    check := fun lat _ _ => decide (lat ≤ 10) }

/-- A sample breach-avoidance instance for gf0, with in-fence loiter points. -/
def ba0 : GfBreachAvoidance gf0 :=
  { testPointLat := 1, testPointLon := 2
    loiterPointMCLat := 1, loiterPointMCLon := 2, loiterAltMC := 10
    loiterPointFWLat := 3, loiterPointFWLon := 4, loiterAltFW := 20
    mcInside := by decide
    fwInside := by decide }

/-- The sample geofence with the distance-to-home check failing (a
violation). -/
def gf1 : GeofenceIface :=
  { gf0 with isCloserThanMaxDistToHome := fun _ _ _ => false }

/-- A sample breach-avoidance instance for gf1. -/
def ba1 : GfBreachAvoidance gf1 :=
  { testPointLat := 1, testPointLon := 2
    loiterPointMCLat := 1, loiterPointMCLon := 2, loiterAltMC := 10
    loiterPointFWLat := 3, loiterPointFWLon := 4, loiterAltFW := 20
    mcInside := by decide
    fwInside := by decide }

/-- The sample navigator, armed (still in the manual navigation state). -/
def armedGfNavigator : Navigator :=
  { baseNavigator with armingState := ArmingState.armed }

/-- A DO_REPOSITION message with no position arguments. -/
def repoNavCmd : NavCmdMsg :=
  { command := NavCmd.doReposition
    param1 := none, param2 := none, param3 := none, param4 := none
    param5 := none, param6 := none, param7 := none }

/-
  Theorems.  Each claim Cn of the specification gets one theorem; helper
  lemmas are shared.
-/

/-- Every arm of the DO_FLIGHTTERMINATION handler leaves cmd_result at
accepted and answers nothing directly. -/
theorem handleFlightTermination_shape (s : Commander) (cmd : Cmd) :
    (handleFlightTermination s cmd).cmdResult = CmdResult.accepted ∧
    (handleFlightTermination s cmd).direct = [] := by
  unfold handleFlightTermination
  split_ifs <;> exact ⟨rfl, rfl⟩

/-- handle_command on a broadcast DO_FLIGHTTERMINATION reduces to the
flight-termination arm followed by a single accepted acknowledgment. -/
theorem handle_command_ft (env : Env) (s : Commander) (now : Time) (p : Param) :
    handle_command env s now (ftCmd p) =
      ⟨true, (handleFlightTermination s (ftCmd p)).s, [CmdResult.accepted],
       (handleFlightTermination s (ftCmd p)).parachute⟩ := by
  obtain ⟨h1, h2⟩ := handleFlightTermination_shape s (ftCmd p)
  unfold handle_command
  simp only [ftCmd, mkCmd] at h1 h2 ⊢
  simp [caseAcks, h1, h2]

/-- C1: for every sequence of FLIGHT_TERMINATION commands handled by the
command dispatcher — over states satisfying the flag/latch coupling — a
command with param1 > 1.5 sets lockdown, a command with 0.5 < param1 ≤ 1.5
sets force_failsafe and sends the parachute command on the edge, a command
with param1 ≤ 0.5 clears both latches; the same severity issued twice in a
row leaves the state of the second call unchanged and sends no second
parachute command, and every such command is acknowledged accepted. -/
theorem C1_flight_termination (env : Env) (s : Commander) (now now2 : Time) (p q : Param)
    (hinv : termInv s) :
    (handle_command env s now (ftCmd p)).acks = [CmdResult.accepted] ∧
    termInv (handle_command env s now (ftCmd p)).s ∧
    (termSeverity p = TermSeverity.lockdownLevel →
      (handle_command env s now (ftCmd p)).s.actuatorArmed.lockdown = true) ∧
    (termSeverity p = TermSeverity.terminateLevel →
      (handle_command env s now (ftCmd p)).s.actuatorArmed.forceFailsafe = true ∧
      (s.flightTerminationTriggered = false →
        (handle_command env s now (ftCmd p)).parachute = 1)) ∧
    (termSeverity p = TermSeverity.clearLevel →
      (handle_command env s now (ftCmd p)).s.actuatorArmed.lockdown = false ∧
      (handle_command env s now (ftCmd p)).s.actuatorArmed.forceFailsafe = false ∧
      (handle_command env s now (ftCmd p)).s.lockdownTriggered = false ∧
      (handle_command env s now (ftCmd p)).s.flightTerminationTriggered = false) ∧
    (termSeverity q = termSeverity p →
      (handle_command env (handle_command env s now (ftCmd p)).s now2 (ftCmd q)).s =
        (handle_command env s now (ftCmd p)).s ∧
      (handle_command env (handle_command env s now (ftCmd p)).s now2 (ftCmd q)).parachute
        = 0 ∧
      (handle_command env (handle_command env s now (ftCmd p)).s now2 (ftCmd q)).acks =
        [CmdResult.accepted]) := by
  obtain ⟨hl, hf⟩ := hinv
  simp only [handle_command_ft]
  simp only [handleFlightTermination, ftCmd, mkCmd, termSeverity, termInv]
  split_ifs <;> simp_all

/-- Witness for C1 at a concrete input: the latch coupling holds on the
sample state, and a 2.0-then-2.0 command pair sets lockdown once, leaves the
second call a no-op, and acknowledges both accepted. -/
theorem C1_flight_termination_witness :
    termInv baseCommander ∧
    ((handle_command env0 baseCommander 0 (ftCmd (some 2))).acks =
       [CmdResult.accepted] ∧
     termInv (handle_command env0 baseCommander 0 (ftCmd (some 2))).s ∧
     (termSeverity (some 2) = TermSeverity.lockdownLevel →
       (handle_command env0 baseCommander 0 (ftCmd (some 2))).s.actuatorArmed.lockdown =
         true) ∧
     (termSeverity (some 2) = TermSeverity.terminateLevel →
       (handle_command env0 baseCommander 0
           (ftCmd (some 2))).s.actuatorArmed.forceFailsafe = true ∧
       (baseCommander.flightTerminationTriggered = false →
         (handle_command env0 baseCommander 0 (ftCmd (some 2))).parachute = 1)) ∧
     (termSeverity (some 2) = TermSeverity.clearLevel →
       (handle_command env0 baseCommander 0 (ftCmd (some 2))).s.actuatorArmed.lockdown =
         false ∧
       (handle_command env0 baseCommander 0
           (ftCmd (some 2))).s.actuatorArmed.forceFailsafe = false ∧
       (handle_command env0 baseCommander 0 (ftCmd (some 2))).s.lockdownTriggered =
         false ∧
       (handle_command env0 baseCommander 0
           (ftCmd (some 2))).s.flightTerminationTriggered = false) ∧
     (termSeverity (some 2) = termSeverity (some 2) →
       (handle_command env0 (handle_command env0 baseCommander 0 (ftCmd (some 2))).s 1
           (ftCmd (some 2))).s =
         (handle_command env0 baseCommander 0 (ftCmd (some 2))).s ∧
       (handle_command env0 (handle_command env0 baseCommander 0 (ftCmd (some 2))).s 1
           (ftCmd (some 2))).parachute = 0 ∧
       (handle_command env0 (handle_command env0 baseCommander 0 (ftCmd (some 2))).s 1
           (ftCmd (some 2))).acks = [CmdResult.accepted])) :=
  ⟨by constructor <;> rfl,
   C1_flight_termination env0 baseCommander 0 1 (some 2) (some 2) (by constructor <;> rfl)⟩

/-- C2 counterexample: a Kill action whose source is the RC button — with no
RC calibration in progress and manual_lockdown clear — does not set
manual_lockdown and sends no parachute command, refuting the claim that
every Kill action sets manual_lockdown and fires the parachute on the kill
edge. -/
theorem C2_counterexample :
    baseCommander.actuatorArmed.manualLockdown = false ∧
    baseCommander.rcCalibrationInProgress = false ∧
    (executeActionRequest env0 baseCommander 0
       ⟨ActionSource.rcButton, ActionKind.kill, MainState.manual⟩).1.actuatorArmed.manualLockdown
      = false ∧
    (executeActionRequest env0 baseCommander 0
       ⟨ActionSource.rcButton, ActionKind.kill, MainState.manual⟩).2 = 0 :=
  ⟨rfl, rfl, rfl, rfl⟩

/-- C2 (amended): a Kill action sourced from the RC switch, outside RC
calibration, sets manual_lockdown and sends the parachute command exactly
once per kill edge — any further Kill action is a no-op with no second
parachute command, and Kill while manual_lockdown is already set has no
effect; a Kill from any other source has no effect; an Unkill clears
manual_lockdown only when sourced from the RC switch, and from any other
source leaves the state unchanged. -/
theorem C2_kill_unkill (env : Env) (s : Commander) (now now2 : Time)
    (src src2 : ActionSource) (m m2 : MainState) :
    (src = ActionSource.rcSwitch → s.rcCalibrationInProgress = false →
      s.actuatorArmed.manualLockdown = false →
      (executeActionRequest env s now
         ⟨src, ActionKind.kill, m⟩).1.actuatorArmed.manualLockdown = true ∧
      (executeActionRequest env s now ⟨src, ActionKind.kill, m⟩).2 = 1 ∧
      (executeActionRequest env
         (executeActionRequest env s now ⟨src, ActionKind.kill, m⟩).1 now2
         ⟨src2, ActionKind.kill, m2⟩).1 =
        (executeActionRequest env s now ⟨src, ActionKind.kill, m⟩).1 ∧
      (executeActionRequest env
         (executeActionRequest env s now ⟨src, ActionKind.kill, m⟩).1 now2
         ⟨src2, ActionKind.kill, m2⟩).2 = 0) ∧
    (s.actuatorArmed.manualLockdown = true →
      (executeActionRequest env s now ⟨src, ActionKind.kill, m⟩).1 = s ∧
      (executeActionRequest env s now ⟨src, ActionKind.kill, m⟩).2 = 0) ∧
    (src ≠ ActionSource.rcSwitch →
      (executeActionRequest env s now ⟨src, ActionKind.kill, m⟩).1 = s ∧
      (executeActionRequest env s now ⟨src, ActionKind.kill, m⟩).2 = 0) ∧
    (src = ActionSource.rcSwitch → s.rcCalibrationInProgress = false →
      (executeActionRequest env s now
         ⟨src, ActionKind.unkill, m⟩).1.actuatorArmed.manualLockdown = false) ∧
    (src ≠ ActionSource.rcSwitch →
      (executeActionRequest env s now ⟨src, ActionKind.unkill, m⟩).1 = s) := by
  cases src <;> cases src2 <;>
    cases hml : s.actuatorArmed.manualLockdown <;>
    cases hrc : s.rcCalibrationInProgress <;>
    simp_all [executeActionRequest, reasonOfSource]

/-- Witness for C2 at a concrete input: a Kill from the RC switch on the
sample state engages manual_lockdown, fires the parachute once, and a second
Kill (from the RC button) is a no-op with no second parachute command. -/
theorem C2_kill_unkill_witness :
    baseCommander.rcCalibrationInProgress = false ∧
    baseCommander.actuatorArmed.manualLockdown = false ∧
    ((executeActionRequest env0 baseCommander 0
        ⟨ActionSource.rcSwitch, ActionKind.kill,
         MainState.manual⟩).1.actuatorArmed.manualLockdown = true ∧
     (executeActionRequest env0 baseCommander 0
        ⟨ActionSource.rcSwitch, ActionKind.kill, MainState.manual⟩).2 = 1 ∧
     (executeActionRequest env0
        (executeActionRequest env0 baseCommander 0
           ⟨ActionSource.rcSwitch, ActionKind.kill, MainState.manual⟩).1 1
        ⟨ActionSource.rcButton, ActionKind.kill, MainState.manual⟩).1 =
       (executeActionRequest env0 baseCommander 0
          ⟨ActionSource.rcSwitch, ActionKind.kill, MainState.manual⟩).1 ∧
     (executeActionRequest env0
        (executeActionRequest env0 baseCommander 0
           ⟨ActionSource.rcSwitch, ActionKind.kill, MainState.manual⟩).1 1
        ⟨ActionSource.rcButton, ActionKind.kill, MainState.manual⟩).2 = 0) :=
  ⟨rfl, rfl,
   (C2_kill_unkill env0 baseCommander 0 1 ActionSource.rcSwitch ActionSource.rcButton
      MainState.manual MainState.manual).1 rfl rfl rfl⟩

/-- The number of behaviors run active is one exactly when a behavior is
selected, and zero otherwise. -/
theorem runFlags_active_count (sel : Option NavMode) :
    ((runFlags sel).filter (fun pr => pr.2)).length = if sel.isSome then 1 else 0 := by
  cases sel with
  | none => rfl
  | some m => cases m <;> rfl

/-- A behavior is selected exactly when the vehicle is armed and nav_state is
one of the seven dispatched auto states. -/
theorem selectedNavMode_isSome (env : NavEnv) (n : Navigator) :
    (selectedNavMode env n).isSome =
      (n.armingState == ArmingState.armed && isAutoDispatchState n.navState) := by
  obtain ⟨ns, as, vt, pns, nm, pst, psu, psi, cls, rep, tot, gvs, lgc, gr⟩ := n
  cases as <;> cases ns <;> rfl

/-- C3 counterexample: on a disarmed vehicle in the manual navigation state,
the evaluation cycle runs every behavior as inactive — zero behaviors are
active, refuting the claim that exactly one behavior is active for every
nav_state and arming state. -/
theorem C3_counterexample :
    baseNavigator.armingState ≠ ArmingState.armed ∧
    baseNavigator.navState = NavState.manual ∧
    ((dispatchCycle navEnv0 baseNavigator 0).2.filter (fun pr => pr.2)).length = 0 := by
  refine ⟨by decide, rfl, rfl⟩

/-- C3 (amended): at every evaluation cycle each of the seven behaviors
{Mission, Loiter, RTL, Takeoff, Land, PrecisionLand, VtolTakeoff} is run
exactly once; exactly one of them is run as active when the vehicle is armed
and nav_state is one of the seven dispatched auto states, and all of them are
run as inactive (zero active) when the vehicle is disarmed or nav_state is a
manual / stabilized / offboard / termination state. -/
theorem C3_single_active (env : NavEnv) (n : Navigator) (now : Time) :
    ((dispatchCycle env n now).2.map Prod.fst = navigatorModeArray) ∧
    (n.armingState = ArmingState.armed → isAutoDispatchState n.navState = true →
      ((dispatchCycle env n now).2.filter (fun pr => pr.2)).length = 1) ∧
    (¬ (n.armingState = ArmingState.armed ∧ isAutoDispatchState n.navState = true) →
      ((dispatchCycle env n now).2.filter (fun pr => pr.2)).length = 0) := by
  have hflags : (dispatchCycle env n now).2 = runFlags (selectedNavMode env n) := rfl
  refine ⟨rfl, ?_, ?_⟩
  · intro h1 h2
    rw [hflags, runFlags_active_count, selectedNavMode_isSome]
    simp [h1, h2]
  · intro h
    rw [hflags, runFlags_active_count, selectedNavMode_isSome]
    rcases Decidable.em (n.armingState = ArmingState.armed) with h1 | h1
    · rcases Decidable.em (isAutoDispatchState n.navState = true) with h2 | h2
      · exact absurd ⟨h1, h2⟩ h
      · simp [h1, h2]
    · simp [h1]

/-- Witness for C3 at concrete inputs: an armed vehicle in AUTO_LOITER runs
exactly one active behavior, and the run list covers the seven behaviors. -/
theorem C3_single_active_witness :
    armedLoiterNavigator.armingState = ArmingState.armed ∧
    isAutoDispatchState armedLoiterNavigator.navState = true ∧
    ((dispatchCycle navEnv0 armedLoiterNavigator 0).2.filter
       (fun pr => pr.2)).length = 1 :=
  ⟨rfl, rfl, (C3_single_active navEnv0 armedLoiterNavigator 0).2.1 rfl rfl⟩

/-- C4: whenever the selected navigation behavior changes from one cycle to
the next, the position-setpoint triplet is reset to the invalid/idle state,
except in exactly two cases where it is left unchanged by the switch: (a) the
previous behavior was Takeoff and the new behavior is Loiter, and (b) the new
behavior is Loiter and the current setpoint is valid with type LOITER. -/
theorem C4_triplet_reset (env : NavEnv) (n : Navigator) (now : Time)
    (hchange : selectedNavMode env n ≠ n.navigationMode) :
    ((¬ (n.navigationMode = some NavMode.takeoff ∧
         selectedNavMode env n = some NavMode.loiter) ∧
      ¬ (selectedNavMode env n = some NavMode.loiter ∧
         n.posSpTriplet.current.valid = true ∧
         n.posSpTriplet.current.typ = SetpointType.loiter)) →
      (dispatchCycle env n now).1.posSpTriplet =
        ⟨reset_position_setpoint env now, reset_position_setpoint env now,
         reset_position_setpoint env now⟩ ∧
      (dispatchCycle env n now).1.posSpTriplet.current.valid = false ∧
      (dispatchCycle env n now).1.posSpTriplet.current.typ = SetpointType.idle) ∧
    (((n.navigationMode = some NavMode.takeoff ∧
       selectedNavMode env n = some NavMode.loiter) ∨
      (selectedNavMode env n = some NavMode.loiter ∧
       n.posSpTriplet.current.valid = true ∧
       n.posSpTriplet.current.typ = SetpointType.loiter)) →
      (dispatchCycle env n now).1.posSpTriplet = n.posSpTriplet) := by
  have hne : n.navigationMode ≠ selectedNavMode env n := fun h => hchange h.symm
  constructor
  · rintro ⟨ha, hb⟩
    have hcond : ¬ (n.navigationMode = some NavMode.takeoff ∧
          selectedNavMode env n = some NavMode.loiter) ∧
        ¬ (selectedNavMode env n = some NavMode.loiter ∧
           (n.posSpTriplet.current.valid ∧
            n.posSpTriplet.current.typ = SetpointType.loiter)) :=
      ⟨ha, fun hx => hb ⟨hx.1, hx.2.1, hx.2.2⟩⟩
    have hreset : (dispatchCycle env n now).1.posSpTriplet =
        ⟨reset_position_setpoint env now, reset_position_setpoint env now,
         reset_position_setpoint env now⟩ := by
      unfold dispatchCycle reset_triplets
      dsimp only
      rw [if_pos hne, if_pos hcond]
      split_ifs <;> rfl
    exact ⟨hreset, by rw [hreset]; rfl, by rw [hreset]; rfl⟩
  · intro hexc
    have hloiter : selectedNavMode env n = some NavMode.loiter := by
      rcases hexc with h | h
      · exact h.2
      · exact h.1
    have hcondneg : ¬ (¬ (n.navigationMode = some NavMode.takeoff ∧
          selectedNavMode env n = some NavMode.loiter) ∧
        ¬ (selectedNavMode env n = some NavMode.loiter ∧
           (n.posSpTriplet.current.valid ∧
            n.posSpTriplet.current.typ = SetpointType.loiter))) := by
      rintro ⟨h1, h2⟩
      rcases hexc with h | h
      · exact h1 ⟨h.1, h.2⟩
      · exact h2 ⟨h.1, h.2.1, h.2.2⟩
    unfold dispatchCycle reset_triplets
    dsimp only
    rw [if_pos hne, if_neg hcondneg]
    split_ifs <;> first | rfl | simp_all

/-- Witness for C4 at concrete inputs: switching the sample navigator (no
behavior active) into AUTO_MISSION armed resets the triplet to invalid/idle. -/
theorem C4_triplet_reset_witness :
    selectedNavMode navEnv0 armedMissionNavigator ≠ armedMissionNavigator.navigationMode ∧
    ((dispatchCycle navEnv0 armedMissionNavigator 7).1.posSpTriplet =
       ⟨reset_position_setpoint navEnv0 7, reset_position_setpoint navEnv0 7,
        reset_position_setpoint navEnv0 7⟩ ∧
     (dispatchCycle navEnv0 armedMissionNavigator 7).1.posSpTriplet.current.valid = false ∧
     (dispatchCycle navEnv0 armedMissionNavigator 7).1.posSpTriplet.current.typ =
       SetpointType.idle) :=
  ⟨by decide,
   (C4_triplet_reset navEnv0 armedMissionNavigator 7 (by decide)).1 (by decide)⟩

/-- C5 counterexample: an arm request from the RC stick gesture, arriving
0 µs after the most recent disarm (well inside the 5-second window), is not
evaluated as if run_preflight_checks were false — with the throttle above
center the checked call denies while the unchecked call would arm — refuting
the claim that the grace window covers every RC source. -/
theorem C5_counterexample :
    (0 : Time) - graceCommander.lastDisarmedTimestamp < graceUs ∧
    isRcReason ArmDisarmReason.rcStick = true ∧
    arm env0 graceCommander 0 ArmDisarmReason.rcStick true ≠
      arm env0 graceCommander 0 ArmDisarmReason.rcStick false := by
  refine ⟨by decide, rfl, by decide⟩

/-- C5 (amended): for every arm request whose calling reason is the RC
switch arriving less than 5 seconds after the most recent disarm timestamp,
the preflight checks are skipped — the request is evaluated exactly as if
run_preflight_checks were false.  (Requests from the RC stick or RC button
receive no such grace, as the counterexample shows.) -/
theorem C5_grace_window (env : Env) (s : Commander) (now : Time) (rpc : Bool)
    (hwin : now - s.lastDisarmedTimestamp < graceUs) :
    arm env s now ArmDisarmReason.rcSwitch rpc =
      arm env s now ArmDisarmReason.rcSwitch false := by
  unfold arm
  simp [hwin]

/-- Witness for C5 at concrete inputs. -/
theorem C5_grace_window_witness :
    (0 : Time) - baseCommander.lastDisarmedTimestamp < graceUs ∧
    arm env0 baseCommander 0 ArmDisarmReason.rcSwitch true =
      arm env0 baseCommander 0 ArmDisarmReason.rcSwitch false :=
  ⟨by decide, C5_grace_window env0 baseCommander 0 true (by decide)⟩

/-- C6: an ARM_DISARM command requesting disarm without the force magic
value, on a vehicle that is neither landed (including maybe-landed or a
ground vehicle) nor — vacuously on this path, since a command-sourced
request is never RC-sourced — in the rotary/manual-thrust/RC combination, is
denied: the commander state (in particular the armed state) is unchanged and
the command is acknowledged temporarily_rejected. -/
theorem C6_disarm_denied (env : Env) (s : Commander) (now : Time) (cmd : Cmd)
    (htgt : (cmd.targetSystem = s.vehicleStatus.systemId ∨ cmd.targetSystem = 0) ∧
            (cmd.targetComponent = s.vehicleStatus.componentId ∨ cmd.targetComponent = 0))
    (hcmd : cmd.command = VehicleCmd.armDisarm)
    (hdisarm : pRound cmd.param1 = 0)
    (hnoforce : pRound cmd.param2 ≠ 21196)
    (hland : s.landDetected.landed = false ∧ s.landDetected.maybeLanded = false ∧
             is_ground_vehicle s.vehicleStatus = false) :
    (handle_command env s now cmd).acks = [CmdResult.temporarilyRejected] ∧
    (handle_command env s now cmd).s = s ∧
    (handle_command env s now cmd).s.armState = s.armState ∧
    (handle_command env s now cmd).s.actuatorArmed = s.actuatorArmed := by
  obtain ⟨c, p1, p2, p3, p4, p5, p6, p7, ts, tc, ss, sc, fe⟩ := cmd
  dsimp only at hcmd hdisarm hnoforce htgt
  subst hcmd
  obtain ⟨hl, hm, hg⟩ := hland
  have hmain : handle_command env s now
      ⟨VehicleCmd.armDisarm, p1, p2, p3, p4, p5, p6, p7, ts, tc, ss, sc, fe⟩ =
      ⟨true, s, [CmdResult.temporarilyRejected], 0⟩ := by
    unfold handle_command handleArmDisarm disarm
    rw [if_neg (by rcases htgt with ⟨h1 | h1, h2 | h2⟩ <;> simp [h1, h2])]
    cases fe <;> simp [pToInt8, hdisarm, hnoforce, hl, hm, hg, isRcReason, caseAcks]
  rw [hmain]
  exact ⟨rfl, rfl, rfl, rfl⟩

/-- Witness for C6 at concrete inputs: an armed, flying sample vehicle
receiving a broadcast unforced disarm command. -/
theorem C6_disarm_denied_witness :
    ((disarmCmd.targetSystem = flyingCommander.vehicleStatus.systemId ∨
        disarmCmd.targetSystem = 0) ∧
     (disarmCmd.targetComponent = flyingCommander.vehicleStatus.componentId ∨
        disarmCmd.targetComponent = 0)) ∧
    pRound disarmCmd.param1 = 0 ∧
    pRound disarmCmd.param2 ≠ 21196 ∧
    ((handle_command env0 flyingCommander 0 disarmCmd).acks =
       [CmdResult.temporarilyRejected] ∧
     (handle_command env0 flyingCommander 0 disarmCmd).s = flyingCommander ∧
     (handle_command env0 flyingCommander 0 disarmCmd).s.armState =
       flyingCommander.armState ∧
     (handle_command env0 flyingCommander 0 disarmCmd).s.actuatorArmed =
       flyingCommander.actuatorArmed) :=
  ⟨⟨Or.inr rfl, Or.inr rfl⟩, by decide, by decide,
   C6_disarm_denied env0 flyingCommander 0 disarmCmd ⟨Or.inr rfl, Or.inr rfl⟩ rfl
     (by decide) (by decide) ⟨rfl, rfl, rfl⟩⟩

/-- DO_REPOSITION always produces exactly one acknowledgment. -/
theorem C7len_doReposition (env : Env) (s : Commander) (cmd : Cmd) :
    (caseAcks (handleDoReposition env s cmd)).length = 1 := by
  unfold handleDoReposition caseAcks
  try dsimp only
  split_ifs <;> first | rfl | simp_all

/-- DO_SET_MODE always produces exactly one acknowledgment. -/
theorem C7len_doSetMode (env : Env) (s : Commander) (cmd : Cmd) :
    (caseAcks (handleDoSetMode env s cmd)).length = 1 := by
  unfold handleDoSetMode caseAcks
  try dsimp only
  rcases hd : (decodeSetMode (pToUInt8 cmd.param1) (pToUInt8 cmd.param2)
      (pToUInt8 cmd.param3)).1 with _ | d <;>
    split_ifs <;> first | rfl | simp_all

/-- ARM_DISARM produces one acknowledgment unless param1, rounded and
narrowed to int8, is neither arm nor disarm, in which case it produces
none. -/
theorem C7len_armDisarm (env : Env) (s : Commander) (now : Time) (cmd : Cmd) :
    (caseAcks (handleArmDisarm env s now cmd)).length =
      if pToInt8 cmd.param1 ≠ 1 ∧ pToInt8 cmd.param1 ≠ 0 then 0 else 1 := by
  unfold handleArmDisarm caseAcks
  try dsimp only
  split_ifs <;> first | rfl | simp_all

/-- DO_FLIGHTTERMINATION always produces exactly one acknowledgment. -/
theorem C7len_flightTermination (s : Commander) (cmd : Cmd) :
    (caseAcks (handleFlightTermination s cmd)).length = 1 := by
  unfold handleFlightTermination caseAcks
  try dsimp only
  split_ifs <;> first | rfl | simp_all

/-- DO_SET_HOME always produces exactly one acknowledgment. -/
theorem C7len_doSetHome (env : Env) (s : Commander) (cmd : Cmd) :
    (caseAcks (handleDoSetHome env s cmd)).length = 1 := by
  unfold handleDoSetHome caseAcks
  try dsimp only
  split_ifs <;> first | rfl | simp_all

/-- NAV_RETURN_TO_LAUNCH always produces exactly one acknowledgment. -/
theorem C7len_navReturnToLaunch (env : Env) (s : Commander) :
    (caseAcks (handleNavReturnToLaunch env s)).length = 1 := by
  unfold handleNavReturnToLaunch caseAcks
  try dsimp only
  split_ifs <;> first | rfl | simp_all

/-- NAV_TAKEOFF always produces exactly one acknowledgment. -/
theorem C7len_navTakeoff (env : Env) (s : Commander) :
    (caseAcks (handleNavTakeoff env s)).length = 1 := by
  unfold handleNavTakeoff caseAcks
  try dsimp only
  split_ifs <;> first | rfl | simp_all

/-- NAV_VTOL_TAKEOFF always produces exactly one acknowledgment. -/
theorem C7len_navVtolTakeoff (env : Env) (s : Commander) :
    (caseAcks (handleNavVtolTakeoff env s)).length = 1 := by
  unfold handleNavVtolTakeoff caseAcks
  try dsimp only
  split_ifs <;> first | rfl | simp_all

/-- NAV_LAND always produces exactly one acknowledgment. -/
theorem C7len_navLand (env : Env) (s : Commander) :
    (caseAcks (handleNavLand env s)).length = 1 := by
  unfold handleNavLand caseAcks
  try dsimp only
  split_ifs <;> first | rfl | simp_all

/-- NAV_PRECLAND always produces exactly one acknowledgment. -/
theorem C7len_navPrecland (env : Env) (s : Commander) :
    (caseAcks (handleNavPrecland env s)).length = 1 := by
  unfold handleNavPrecland caseAcks
  try dsimp only
  split_ifs <;> first | rfl | simp_all

/-- MISSION_START always produces exactly one acknowledgment. -/
theorem C7len_missionStart (env : Env) (s : Commander) (now : Time) (cmd : Cmd) :
    (caseAcks (handleMissionStart env s now cmd)).length = 1 := by
  unfold handleMissionStart caseAcks
  try dsimp only
  split_ifs <;> first | rfl | simp_all

/-- CONTROL_HIGH_LATENCY produces one failed acknowledgment when a
high-latency heartbeat was seen after boot, and none otherwise. -/
theorem C7len_controlHighLatency (env : Env) (s : Commander) :
    (caseAcks (handleControlHighLatency env s)).length =
      if env.bootTimestamp < env.highLatencyHeartbeat then 1 else 0 := by
  unfold handleControlHighLatency caseAcks
  try dsimp only
  split_ifs <;> first | rfl | simp_all

/-- DO_ORBIT always produces exactly one acknowledgment. -/
theorem C7len_doOrbit (env : Env) (s : Commander) :
    (caseAcks (handleDoOrbit env s)).length = 1 := by
  unfold handleDoOrbit caseAcks
  try dsimp only
  split_ifs <;> first | rfl | simp_all

/-- ACTUATOR_TEST produces one acknowledgment unless it passes the
armed/safety and COM_MOT_TEST_EN gates with a function id below 1000 outside
both the motor and the servo ranges, in which case it produces none. -/
theorem C7len_actuatorTest (env : Env) (s : Commander) (cmd : Cmd) :
    (caseAcks (⟨handle_command_actuator_test env s cmd, s, [], 0⟩ : CaseOut)).length =
      if ¬ (s.armState = ArmingState.armed ∨
            (env.safetyButtonAvailable ∧ ¬ env.safetyOff)) ∧
         env.comMotTestEn ∧
         actuatorFunction cmd.param5 < 1000 ∧
         ¬ (1 ≤ actuatorFunction cmd.param5 ∧
            actuatorFunction cmd.param5 < 1 + env.maxNumMotors) ∧
         ¬ (33 ≤ actuatorFunction cmd.param5 ∧
            actuatorFunction cmd.param5 < 33 + env.maxNumServos)
      then 0 else 1 := by
  unfold handle_command_actuator_test caseAcks
  try dsimp only
  split_ifs <;> first | rfl | simp_all

/-- PREFLIGHT_REBOOT_SHUTDOWN always produces exactly one acknowledgment. -/
theorem C7len_rebootShutdown (env : Env) (s : Commander) (cmd : Cmd) :
    (caseAcks (handleRebootShutdown env s cmd)).length = 1 := by
  unfold handleRebootShutdown caseAcks
  try dsimp only
  split_ifs <;> first | rfl | simp_all

/-- The calibration-selection chain produces exactly one acknowledgment
except on the delegated temperature-calibration arm, which produces none. -/
theorem C7len_calibrationChain (env : Env) (s : Commander) (cmd : Cmd) :
    (caseAcks (calibrationChain env s cmd)).length =
      if pToInt cmd.param1 ≠ 1 ∧
         (pToInt cmd.param1 = temperatureCalibration ∨
          pToInt cmd.param5 = temperatureCalibration ∨
          pToInt cmd.param7 = temperatureCalibration)
      then 0 else 1 := by
  unfold calibrationChain caseAcks
  try dsimp only
  by_cases h1 : pToInt cmd.param1 = 1
  · rw [if_pos h1,
      if_neg (show ¬ (pToInt cmd.param1 ≠ 1 ∧
          (pToInt cmd.param1 = temperatureCalibration ∨
           pToInt cmd.param5 = temperatureCalibration ∨
           pToInt cmd.param7 = temperatureCalibration)) from fun hx => hx.1 h1)]
    rfl
  · rw [if_neg h1]
    by_cases ht : pToInt cmd.param1 = temperatureCalibration ∨
        pToInt cmd.param5 = temperatureCalibration ∨
        pToInt cmd.param7 = temperatureCalibration
    · rw [if_pos ht,
        if_pos (show pToInt cmd.param1 ≠ 1 ∧
            (pToInt cmd.param1 = temperatureCalibration ∨
             pToInt cmd.param5 = temperatureCalibration ∨
             pToInt cmd.param7 = temperatureCalibration) from ⟨h1, ht⟩)]
      rfl
    · rw [if_neg ht,
        if_neg (show ¬ (pToInt cmd.param1 ≠ 1 ∧
            (pToInt cmd.param1 = temperatureCalibration ∨
             pToInt cmd.param5 = temperatureCalibration ∨
             pToInt cmd.param7 = temperatureCalibration)) from fun hx => ht hx.2)]
      by_cases h2 : pToInt cmd.param2 = 1
      · rw [if_pos h2]; rfl
      · rw [if_neg h2]
        by_cases h3 : pToInt cmd.param3 = 1
        · rw [if_pos h3]; rfl
        · rw [if_neg h3]
          by_cases h41 : pToInt cmd.param4 = 1
          · rw [if_pos h41]; rfl
          · rw [if_neg h41]
            by_cases h42 : pToInt cmd.param4 = 2
            · rw [if_pos h42]; rfl
            · rw [if_neg h42]
              by_cases h51 : pToInt cmd.param5 = 1
              · rw [if_pos h51]; rfl
              · rw [if_neg h51]
                by_cases h52 : pToInt cmd.param5 = 2
                · rw [if_pos h52]; rfl
                · rw [if_neg h52]
                  by_cases h54 : pToInt cmd.param5 = 4
                  · rw [if_pos h54]; rfl
                  · rw [if_neg h54]
                    by_cases h6 : pToInt cmd.param6 = 1 ∨ pToInt cmd.param6 = 2
                    · rw [if_pos h6]; rfl
                    · rw [if_neg h6]
                      by_cases h7 : pToInt cmd.param7 = 1
                      · rw [if_pos h7]
                        by_cases hbat : env.checkBatteryDisconnected = true
                        · rw [if_pos hbat]
                          by_cases hsf : env.safetyButtonAvailable = true ∧
                              ¬ env.safetyOff = true
                          · rw [if_pos hsf]; rfl
                          · rw [if_neg hsf]; rfl
                        · rw [if_neg hbat]; rfl
                      · rw [if_neg h7]
                        by_cases h40 : pToInt cmd.param4 = 0
                        · rw [if_pos h40]; rfl
                        · rw [if_neg h40]; rfl

/-- PREFLIGHT_CALIBRATION produces exactly one acknowledgment except on the
delegated temperature-calibration path, which produces none. -/
theorem C7len_preflightCalibration (env : Env) (s : Commander) (cmd : Cmd) :
    (caseAcks (handlePreflightCalibration env s cmd)).length =
      if ¬ (s.armState = ArmingState.armed ∨ s.armState = ArmingState.shutdown ∨
            env.workerBusy) ∧
         (arming_state_transition env s.vehicleStatus.navState s.armState
            ArmingState.init false).1 ≠ TransitionResult.denied ∧
         pToInt cmd.param1 ≠ 1 ∧
         (pToInt cmd.param1 = temperatureCalibration ∨
          pToInt cmd.param5 = temperatureCalibration ∨
          pToInt cmd.param7 = temperatureCalibration)
      then 0 else 1 := by
  rcases Decidable.em (s.armState = ArmingState.armed ∨
      s.armState = ArmingState.shutdown ∨ env.workerBusy = true) with hb | hb
  · unfold handlePreflightCalibration
    rw [if_pos hb, if_neg (fun hx => hx.1 hb)]
    rfl
  · rcases Decidable.em ((arming_state_transition env s.vehicleStatus.navState s.armState
        ArmingState.init false).1 = TransitionResult.denied) with hi | hi
    · unfold handlePreflightCalibration
      rw [if_neg hb]
      dsimp only
      rw [if_pos hi, if_neg (fun hx => hx.2.1 hi)]
      rfl
    · unfold handlePreflightCalibration
      rw [if_neg hb]
      dsimp only
      rw [if_neg hi, C7len_calibrationChain]
      by_cases ht : pToInt cmd.param1 ≠ 1 ∧
        (pToInt cmd.param1 = temperatureCalibration ∨
         pToInt cmd.param5 = temperatureCalibration ∨
         pToInt cmd.param7 = temperatureCalibration)
      · rw [if_pos ht, if_pos ⟨hb, hi, ht.1, ht.2⟩]
      · rw [if_neg ht, if_neg (fun hx => ht ⟨hx.2.2.1, hx.2.2.2⟩)]

/-- FIXED_MAG_CAL_YAW always produces exactly one acknowledgment. -/
theorem C7len_fixedMagCalYaw (env : Env) (s : Commander) :
    (caseAcks (handleFixedMagCalYaw env s)).length = 1 := by
  unfold handleFixedMagCalYaw caseAcks
  try dsimp only
  split_ifs <;> first | rfl | simp_all

/-- PREFLIGHT_STORAGE produces exactly one acknowledgment except with a
param1 outside 0..4 when not busy, which produces none. -/
theorem C7len_preflightStorage (env : Env) (s : Commander) (cmd : Cmd) :
    (caseAcks (handlePreflightStorage env s cmd)).length =
      if ¬ (s.armState = ArmingState.armed ∨ s.armState = ArmingState.shutdown ∨
            env.workerBusy) ∧
         ¬ (0 ≤ pToInt cmd.param1 ∧ pToInt cmd.param1 ≤ 4)
      then 0 else 1 := by
  unfold handlePreflightStorage caseAcks
  try dsimp only
  split_ifs <;> first | rfl | simp_all

/-- C7 counterexample: a broadcast ARM_DISARM command with the unsupported
action parameter 5, and a broadcast ACTUATOR_TEST command whose function id
0 lies below 1000 outside the motor and servo ranges, are each handled by
this commander, are not on the ignored-command allowlist, and yet are never
acknowledged — refuting the claim that every handled command outside the
allowlist is acknowledged exactly once. -/
theorem C7_counterexample :
    ((handle_command env0 baseCommander 0 badArmDisarmCmd).handled = true ∧
     badArmDisarmCmd.command ≠ VehicleCmd.delegated ∧
     (handle_command env0 baseCommander 0 badArmDisarmCmd).acks = []) ∧
    ((handle_command env0 baseCommander 0 badActuatorTestCmd).handled = true ∧
     badActuatorTestCmd.command ≠ VehicleCmd.delegated ∧
     (handle_command env0 baseCommander 0 badActuatorTestCmd).acks = []) :=
  ⟨⟨rfl, by decide, rfl⟩, ⟨rfl, by decide, rfl⟩⟩

/-- C7 (amended): a command whose non-zero target system or component id
differs from this vehicle's is silently ignored (no acknowledgment, false
return); an addressed command on the ignored-command allowlist gets no
acknowledgment; an unrecognized addressed command is acknowledged
unsupported; and every other addressed command is acknowledged exactly once —
except on the five handled-but-silent paths (ARM_DISARM with an out-of-range
action after the int8 narrowing, CONTROL_HIGH_LATENCY without high-latency
telemetry, the delegated temperature calibration, PREFLIGHT_STORAGE with an
out-of-range param1, and ACTUATOR_TEST past its gates with a function id
below 1000 outside the motor and servo ranges), which produce no
acknowledgment. -/
theorem C7_ack_discipline (env : Env) (s : Commander) (now : Time) (cmd : Cmd) :
    (((cmd.targetSystem ≠ s.vehicleStatus.systemId ∧ cmd.targetSystem ≠ 0) ∨
      (cmd.targetComponent ≠ s.vehicleStatus.componentId ∧ cmd.targetComponent ≠ 0)) →
      (handle_command env s now cmd).handled = false ∧
      (handle_command env s now cmd).acks = []) ∧
    (¬ ((cmd.targetSystem ≠ s.vehicleStatus.systemId ∧ cmd.targetSystem ≠ 0) ∨
        (cmd.targetComponent ≠ s.vehicleStatus.componentId ∧ cmd.targetComponent ≠ 0)) →
      (handle_command env s now cmd).handled = true ∧
      (handle_command env s now cmd).acks.length =
        (if cmd.command = VehicleCmd.delegated ∨ silentPath env s cmd then 0 else 1) ∧
      (cmd.command = VehicleCmd.unknown →
        (handle_command env s now cmd).acks = [CmdResult.unsupported])) := by
  obtain ⟨c, p1, p2, p3, p4, p5, p6, p7, ts, tc, ss, sc, fe⟩ := cmd
  constructor
  · intro h
    unfold handle_command
    rw [if_pos h]
    exact ⟨rfl, rfl⟩
  · intro h
    unfold handle_command
    rw [if_neg h]
    refine ⟨rfl, ?_, ?_⟩
    · cases c <;>
        simp [silentPath, C7len_doReposition, C7len_doSetMode, C7len_armDisarm,
          C7len_flightTermination, C7len_doSetHome, C7len_navReturnToLaunch,
          C7len_navTakeoff, C7len_navVtolTakeoff, C7len_navLand, C7len_navPrecland,
          C7len_missionStart, C7len_controlHighLatency, C7len_doOrbit,
          C7len_actuatorTest, C7len_rebootShutdown, C7len_preflightCalibration,
          C7len_fixedMagCalYaw, C7len_preflightStorage] <;>
        (try split_ifs) <;> first | rfl | ((try simp only [Time] at *); omega)
    · cases c <;> simp [caseAcks]

/-- Witness for C7 at concrete inputs: the target-mismatch arm on a command
addressed to system id 9. -/
theorem C7_ack_discipline_witness :
    (((mkCmd VehicleCmd.doFlightTermination none none none none none none
         none).targetSystem ≠ baseCommander.vehicleStatus.systemId ∧
      (mkCmd VehicleCmd.doFlightTermination none none none none none none
         none).targetSystem ≠ 0) ∨
     ((mkCmd VehicleCmd.doFlightTermination none none none none none none
         none).targetComponent ≠ baseCommander.vehicleStatus.componentId ∧
      (mkCmd VehicleCmd.doFlightTermination none none none none none none
         none).targetComponent ≠ 0)) = False ∧
    ((handle_command env0 baseCommander 0
        (mkCmd VehicleCmd.doFlightTermination none none none none none none
           none)).handled = true ∧
     (handle_command env0 baseCommander 0
        (mkCmd VehicleCmd.doFlightTermination none none none none none none
           none)).acks.length =
       (if (mkCmd VehicleCmd.doFlightTermination none none none none none none
              none).command = VehicleCmd.delegated ∨
           silentPath env0 baseCommander
             (mkCmd VehicleCmd.doFlightTermination none none none none none none
                none) then 0 else 1) ∧
     ((mkCmd VehicleCmd.doFlightTermination none none none none none none
         none).command = VehicleCmd.unknown →
       (handle_command env0 baseCommander 0
          (mkCmd VehicleCmd.doFlightTermination none none none none none none
             none)).acks = [CmdResult.unsupported])) :=
  ⟨by simp [mkCmd],
   (C7_ack_discipline env0 baseCommander 0
      (mkCmd VehicleCmd.doFlightTermination none none none none none none none)).2
     (by simp [mkCmd])⟩

/-- C8: in every commander cycle the failsafe resolver reports a change
exactly when the resolved nav_state differs from the current one, and
nav_state_timestamp is refreshed exactly when the resolver reported a
change; when nav_state is unchanged the timestamp is unchanged. -/
theorem C8_nav_state_timestamp (resolved : NavState) (s : Commander) (now : Time) :
    ((set_nav_state resolved s.vehicleStatus).2 = true ↔
       resolved ≠ s.vehicleStatus.navState) ∧
    ((set_nav_state resolved s.vehicleStatus).2 = true →
       (cycleNavStateUpdate resolved s now).vehicleStatus.navStateTimestamp = now) ∧
    ((set_nav_state resolved s.vehicleStatus).2 = false →
       (cycleNavStateUpdate resolved s now).vehicleStatus.navStateTimestamp =
         s.vehicleStatus.navStateTimestamp) ∧
    (cycleNavStateUpdate resolved s now).vehicleStatus.navState = resolved := by
  unfold cycleNavStateUpdate set_nav_state
  by_cases h : resolved = s.vehicleStatus.navState <;> simp [h]

/-- Witness for C8 at concrete inputs: resolving AUTO_LOITER over the sample
state (nav_state MANUAL) reports a change and refreshes the timestamp. -/
theorem C8_nav_state_timestamp_witness :
    (set_nav_state NavState.autoLoiter baseCommander.vehicleStatus).2 = true ∧
    (cycleNavStateUpdate NavState.autoLoiter baseCommander
       5).vehicleStatus.navStateTimestamp = 5 :=
  ⟨rfl, (C8_nav_state_timestamp NavState.autoLoiter baseCommander 5).2.1 rfl⟩

/-- C9 counterexample: on a disarmed vehicle with a fresh geofence violation
(warning latch clear, check interval elapsed, loiter action configured) the
breach check emits no warning at all — the code also requires the vehicle to
be armed — refuting the claim that the first violating check with a clear
latch always emits the warning. -/
theorem C9_counterexample :
    gfViolated gf1 ba1 navEnv0 baseNavigator ∧
    baseNavigator.geofenceViolationWarningSent = false ∧
    baseNavigator.armingState ≠ ArmingState.armed ∧
    (300000 : Time) - baseNavigator.lastGeofenceCheck > navEnv0.gfCheckIntervalUs ∧
    gf1.action = GeofenceAction.loiter ∧
    (geofence_breach_check gf1 ba1 navEnv0 baseNavigator 300000 true).2 = 0 := by
  exact ⟨by decide, rfl, by decide, by decide, rfl, rfl⟩

/-- C9 (amended): the geofence breach check runs only when geofence position
data is present, an action is configured and more than the check interval
has elapsed since the last check; on a violating check with the warning
latch clear it emits the warning exactly once **while armed** — writing, for
the Loiter action, the loiter point generated for the vehicle's kinematics
(multirotor or fixed-wing method), which lies inside the fence, into the
reposition setpoint buffer — and sets the latch, which suppresses warnings
on later violating checks until a violation-free check clears it. -/
theorem C9_geofence_breach (gf : GeofenceIface) (ba : GfBreachAvoidance gf)
    (env : NavEnv) (n : Navigator) (now : Time) (hgd : Bool) :
    (¬ (hgd = true ∧ gf.action ≠ GeofenceAction.noAction ∧
        now - n.lastGeofenceCheck > env.gfCheckIntervalUs) →
      geofence_breach_check gf ba env n now hgd = (n, 0)) ∧
    (now - n.lastGeofenceCheck ≤ env.gfCheckIntervalUs →
      geofence_breach_check gf ba env n now hgd = (n, 0)) ∧
    ((hgd = true ∧ gf.action ≠ GeofenceAction.noAction ∧
      now - n.lastGeofenceCheck > env.gfCheckIntervalUs) →
      (gfViolated gf ba env n →
        (n.geofenceViolationWarningSent = false → n.armingState = ArmingState.armed →
          (geofence_breach_check gf ba env n now hgd).2 = 1 ∧
          (geofence_breach_check gf ba env n now
             hgd).1.geofenceViolationWarningSent = true ∧
          (gf.action = GeofenceAction.loiter →
            (geofence_breach_check gf ba env n now hgd).1.repositionTriplet.current =
              gfLoiterSetpoint gf ba env n now ∧
            gf.isInsidePolygonOrCircle
              (if n.vehicleType = VehicleType.rotaryWing then ba.loiterPointMCLat
               else ba.loiterPointFWLat)
              (if n.vehicleType = VehicleType.rotaryWing then ba.loiterPointMCLon
               else ba.loiterPointFWLon)
              (if n.vehicleType = VehicleType.rotaryWing then ba.loiterAltMC
               else ba.loiterAltFW) = true) ∧
          (gf.action ≠ GeofenceAction.loiter →
            (geofence_breach_check gf ba env n now hgd).1.repositionTriplet =
              n.repositionTriplet)) ∧
        (n.geofenceViolationWarningSent = true →
          (geofence_breach_check gf ba env n now hgd).2 = 0 ∧
          (geofence_breach_check gf ba env n now
             hgd).1.geofenceViolationWarningSent = true ∧
          (geofence_breach_check gf ba env n now hgd).1.repositionTriplet =
            n.repositionTriplet)) ∧
      (¬ gfViolated gf ba env n →
        (geofence_breach_check gf ba env n now hgd).2 = 0 ∧
        (geofence_breach_check gf ba env n now
           hgd).1.geofenceViolationWarningSent = false ∧
        (geofence_breach_check gf ba env n now hgd).1.geofenceResult.violated =
          false)) := by
  refine ⟨?_, ?_, ?_⟩
  · intro h
    unfold geofence_breach_check
    rw [if_neg h]
  · intro h
    unfold geofence_breach_check
    rw [if_neg (fun hx => absurd hx.2.2 (Nat.not_lt.mpr h))]
  · intro hg
    refine ⟨?_, ?_⟩
    · intro hv
      refine ⟨?_, ?_⟩
      · intro hsent harm
        unfold geofence_breach_check
        rw [if_pos hg, if_pos hv,
          if_pos (show ¬ n.geofenceViolationWarningSent = true ∧
              n.armingState = ArmingState.armed from ⟨by rw [hsent]; simp, harm⟩)]
        refine ⟨rfl, rfl, ?_, ?_⟩
        · intro hac
          rw [if_pos hac]
          refine ⟨rfl, ?_⟩
          by_cases hvt : n.vehicleType = VehicleType.rotaryWing
          · rw [if_pos hvt, if_pos hvt, if_pos hvt]
            exact ba.mcInside
          · rw [if_neg hvt, if_neg hvt, if_neg hvt]
            exact ba.fwInside
        · intro hac
          rw [if_neg hac]
      · intro hsent
        unfold geofence_breach_check
        rw [if_pos hg, if_pos hv,
          if_neg (show ¬ (¬ n.geofenceViolationWarningSent = true ∧
              n.armingState = ArmingState.armed) from fun hx => hx.1 hsent)]
        exact ⟨rfl, by rw [hsent], rfl⟩
    · intro hv
      unfold geofence_breach_check
      rw [if_pos hg, if_neg hv]
      exact ⟨rfl, rfl, rfl⟩

/-- Witness for C9 at concrete inputs: the armed sample vehicle on a fresh
violation gets exactly one warning and the in-fence multirotor loiter point
written into the reposition buffer. -/
theorem C9_geofence_breach_witness :
    (true = true ∧ gf1.action ≠ GeofenceAction.noAction ∧
     (300000 : Time) - armedGfNavigator.lastGeofenceCheck >
       navEnv0.gfCheckIntervalUs) ∧
    gfViolated gf1 ba1 navEnv0 armedGfNavigator ∧
    armedGfNavigator.geofenceViolationWarningSent = false ∧
    ((geofence_breach_check gf1 ba1 navEnv0 armedGfNavigator 300000 true).2 = 1 ∧
     (geofence_breach_check gf1 ba1 navEnv0 armedGfNavigator 300000
        true).1.geofenceViolationWarningSent = true ∧
     (gf1.action = GeofenceAction.loiter →
       (geofence_breach_check gf1 ba1 navEnv0 armedGfNavigator 300000
          true).1.repositionTriplet.current =
         gfLoiterSetpoint gf1 ba1 navEnv0 armedGfNavigator 300000 ∧
       gf1.isInsidePolygonOrCircle
         (if armedGfNavigator.vehicleType = VehicleType.rotaryWing then
            ba1.loiterPointMCLat else ba1.loiterPointFWLat)
         (if armedGfNavigator.vehicleType = VehicleType.rotaryWing then
            ba1.loiterPointMCLon else ba1.loiterPointFWLon)
         (if armedGfNavigator.vehicleType = VehicleType.rotaryWing then
            ba1.loiterAltMC else ba1.loiterAltFW) = true) ∧
     (gf1.action ≠ GeofenceAction.loiter →
       (geofence_breach_check gf1 ba1 navEnv0 armedGfNavigator 300000
          true).1.repositionTriplet = armedGfNavigator.repositionTriplet)) :=
  ⟨⟨rfl, by decide, by decide⟩, by decide, rfl,
   (((C9_geofence_breach gf1 ba1 navEnv0 armedGfNavigator 300000 true).2.2
       ⟨rfl, by decide, by decide⟩).1 (by decide)).1 rfl rfl⟩

/-- C10: a DO_REPOSITION command received by the navigator while the vehicle
is not armed, or whose target position fails the geofence containment check
when geofence position data is available, leaves the navigator state — in
particular the reposition setpoint buffer — entirely unchanged. -/
theorem C10_reposition_frame (gf : GeofenceIface) (env : NavEnv) (n : Navigator)
    (cmd : NavCmdMsg) (hgd : Bool) (now : Time)
    (hcmd : cmd.command = NavCmd.doReposition)
    (h : n.armingState ≠ ArmingState.armed ∨
         (hgd = true ∧ geofence_allows_position gf cmd.param5 cmd.param6
            (match cmd.param7 with
             | some a => a
             | none => env.globalAlt) = false)) :
    handleNavCommand gf env n cmd hgd now = n ∧
    (handleNavCommand gf env n cmd hgd now).repositionTriplet =
      n.repositionTriplet := by
  obtain ⟨c, p1, p2, p3, p4, p5, p6, p7⟩ := cmd
  dsimp only at hcmd h
  subst hcmd
  have hmain : handleNavCommand gf env n
      ⟨NavCmd.doReposition, p1, p2, p3, p4, p5, p6, p7⟩ hgd now = n := by
    unfold handleNavCommand
    rcases h with h | ⟨h1, h2⟩
    · simp [h]
    · simp [h1, h2]
  exact ⟨hmain, by rw [hmain]⟩

/-- Witness for C10 at concrete inputs: a DO_REPOSITION on the disarmed
sample navigator changes nothing. -/
theorem C10_reposition_frame_witness :
    repoNavCmd.command = NavCmd.doReposition ∧
    baseNavigator.armingState ≠ ArmingState.armed ∧
    (handleNavCommand gf0 navEnv0 baseNavigator repoNavCmd true 0 = baseNavigator ∧
     (handleNavCommand gf0 navEnv0 baseNavigator repoNavCmd true 0).repositionTriplet =
       baseNavigator.repositionTriplet) :=
  ⟨rfl, by decide,
   C10_reposition_frame gf0 navEnv0 baseNavigator repoNavCmd true 0 rfl
     (Or.inl (by decide))⟩

end PX4
